import Mathlib

/-!
Verification of `sunist-c/infrastructure`.

A shallow embedding of

* `database/sqlite/driver.go` : the lifecycle of the sqlite backend
  (`sqliteDb.Init` and the factories `NewSqliteDb`, `NewSQLiteV2`, `NewWithLogger`);
* `text/encoding.go` : `EncryptMessageWithAES` / `DecryptMessageWithAES`;
* `thirdparty/openai/model.go` : `getAvailableFineTuningModelEnum` and
  `ChatMessageObject.GetStringContent`;
* `database/functions.go` : `FromSlice`, `EmptySlice`, `FromMap`.

The collaborators that live outside the translated sources (the gorm engine, the
filesystem, the logger, the exit registry, the migration layer, the AES block
function, the random source, the JSON decoder) are parameters of the model.  Every call the driver
makes on one of them is recorded, in program order, in a trace of events.
-/

namespace sqlite

/-! ## Go values seen by the driver -/

/-- A Go error value as far as the driver observes it: the text of `Error()` and
the verdict of `os.IsNotExist` on it. -/
structure GoError where
  msg : String
  notExist : Bool
  deriving DecidableEq, Repr

/-- The error built by `fmt.Errorf(pre + "%w", e)`: its text is `pre` followed by the
text of `e`.  `os.IsNotExist` does not look through such a wrapper. -/
def Errorf (pre : String) (e : GoError) : GoError :=
  { msg := pre ++ e.msg, notExist := false }

/-- Identity of a `*gorm.DB`. -/
abbrev GormDB := Nat

/-- Identity of a `*sql.DB`, the native pool handle. -/
abbrev SqlDB := Nat

/-- Identity of a `logger.Logger`. -/
abbrev LoggerRef := Nat

/-- A model descriptor handed to `Migrate`. -/
abbrev Model := String

/-- Modelled from the spec: `database.Options` is declared outside the translated
sources.  `DataSource` and `Logger` are the two fields `Init` reads (`Logger` may be
nil); the pool fields follow the Configuration record of the data model. -/
structure Options where
  DataSource : String
  Logger : Option LoggerRef
  PoolMin : Option Int
  PoolMax : Option Int
  ConnMaxIdle : Option Nat
  ConnMaxLifetime : Option Nat
  deriving DecidableEq, Repr

/-- Modelled from the spec: `sqlite.Config` is declared outside the translated
sources; it carries the raw configuration of the data model. -/
structure Config where
  DataSource : String
  PoolMin : Option Int
  PoolMax : Option Int
  ConnMaxIdle : Option Nat
  ConnMaxLifetime : Option Nat
  deriving DecidableEq, Repr

/-- The legacy base `database.BaseDatabaseImplement`: the handle `Db`, the bound
logger, and the dialect metadata written by `SetRandCommand` and `SetDriverName`. -/
structure BaseDatabaseImplement where
  Db : Option GormDB
  Logger : Option LoggerRef
  randCommand : String
  driverName : String
  deriving DecidableEq, Repr

/-- The current-revision base `database.BaseDatabaseImplementV2`. -/
structure BaseDatabaseImplementV2 where
  Db : Option GormDB
  deriving DecidableEq, Repr

/-- The struct `sqliteDb`: both bases embedded, and the `initialized` flag. -/
structure sqliteDb where
  BaseDatabaseImplement : BaseDatabaseImplement
  BaseDatabaseImplementV2 : BaseDatabaseImplementV2
  initialized : Bool
  deriving DecidableEq, Repr

/-- The zero value `&sqliteDb{}` the factories start from. -/
def sqliteDb.zero : sqliteDb :=
  { BaseDatabaseImplement := { Db := none, Logger := none, randCommand := "", driverName := "" }
    BaseDatabaseImplementV2 := { Db := none }
    initialized := false }

/-- The constant `DriverName`. -/
def DriverName : String := "sqlite"

/-! ## The world outside the driver -/

/-- The part of the machine the driver changes: the paths that exist on disk. -/
structure World where
  files : List String
  deriving DecidableEq, Repr

/-- The collaborators of the driver, none of them among the translated sources.

* `defaultLogger` : `logger.Default()`;
* `gormOpen w ds` : `gorm.Open(sqlite.Open(ds))` in world `w`, a possibly nil handle
  together with a possibly nil error;
* `filepathJoin` : `filepath.Join`;
* `osCreate w p` : `os.Create(p)` in world `w`, the error if it fails; a creation that
  succeeds adds `p` to the disk;
* `dbDB h` : `h.DB()`, the native pool handle or the error;
* `convertConfigToOptions` : the package function of that name;
* `migrate s ms` : `s.Migrate(ms...)`, the error if it fails; the migration step is
  stateless beyond the call and leaves the instance as it is. -/
structure Env where
  defaultLogger : LoggerRef
  gormOpen : World → String → Option GormDB × Option GoError
  filepathJoin : String → String → String
  osCreate : World → String → Option GoError
  dbDB : GormDB → Except GoError SqlDB
  convertConfigToOptions : Config → Options
  migrate : sqliteDb → List Model → Option GoError

/-- One call on a collaborator. -/
inductive Event where
  | logInfo (l : LoggerRef) (msg data : String)
  | logError (l : LoggerRef) (msg data : String)
  | gormOpen (dataSource : String)
  | osCreate (path : String)
  | setDbLogger (db : GormDB) (l : LoggerRef)
  | dbDB (db : GormDB)
  | parseDatabaseOptions (sqlDb : SqlDB) (options : Options)
  | registerExitEvent (name : String) (sqlDb : SqlDB)
  | migrate (models : List Model)
  deriving DecidableEq, Repr

/-- How a call of `Init` ends: it returns an error value (nil on success), or the
goroutine panics on a nil pointer dereference. -/
inductive Outcome where
  | returned (err : Option GoError)
  | panicked
  deriving DecidableEq, Repr

/-- The result of running `Init`: the instance and the world afterwards, the calls
made on the collaborators, and how the call ended. -/
structure Run where
  inst : sqliteDb
  world : World
  trace : List Event
  out : Outcome
  deriving DecidableEq, Repr

/-! ## `database/sqlite/driver.go` -/

/-- Lines 52 to 72 of `driver.go`: everything `Init` does once the open (and, on
absence, the file creation) is behind it.  `db` is the handle `gorm.Open` returned;
`db.Logger = ...` dereferences it.  The methods of the base are not among the
translated sources: `ParseDatabaseOptions` applies the pool settings to the native
handle and is recorded as an event, `SetRandCommand` and `SetDriverName` are the pure
setters of the dialect metadata. -/
def Init.connect (env : Env) (w : World) (s : sqliteDb) (options : Options)
    (lg : LoggerRef) (db : Option GormDB) (t : List Event) : Run :=
  match db with
  | none => { inst := s, world := w, trace := t, out := .panicked }
  | some h =>
    let t := t ++ [.setDbLogger h lg, .dbDB h]
    match env.dbDB h with
    | .error dbe =>
      { inst := s, world := w, trace := t
        out := .returned (some (Errorf "get sqliteDb database error: " dbe)) }
    | .ok sqlDb =>
      let s : sqliteDb :=
        { s with
          BaseDatabaseImplement :=
            { s.BaseDatabaseImplement with
              Db := some h, randCommand := "random()", driverName := DriverName }
          BaseDatabaseImplementV2 := { Db := some h } }
      { inst := s, world := w
        trace := t ++ [.parseDatabaseOptions sqlDb options,
                       .logInfo lg "successfully open sqliteDb database" options.DataSource,
                       .registerExitEvent "CLOSE_SQLITE_DB_CONN" sqlDb]
        out := .returned none }

/-- The method `(*sqliteDb).Init`. -/
def Init (env : Env) (w : World) (s : sqliteDb) (options : Options) : Run :=
  if s.initialized then
    { inst := s, world := w, trace := [], out := .returned none }
  else
    let s : sqliteDb := { s with initialized := true }
    let lg : LoggerRef := match options.Logger with
      | none => env.defaultLogger
      | some l => l
    let options : Options := { options with Logger := some lg }
    let dataSource := options.DataSource
    let s : sqliteDb :=
      { s with BaseDatabaseImplement := { s.BaseDatabaseImplement with Logger := some lg } }
    let t : List Event :=
      [.logInfo lg "start open sqliteDb database" dataSource, .gormOpen dataSource]
    match env.gormOpen w dataSource with
    | (db, none) => Init.connect env w s options lg db t
    | (db, some openErr) =>
      if !openErr.notExist then
        let err := Errorf "open sqliteDb database error: " openErr
        { inst := s, world := w, trace := t ++ [.logError lg err.msg dataSource]
          out := .returned (some err) }
      else
        let path := env.filepathJoin "data" dataSource
        match env.osCreate w path with
        | some createErr =>
          let err := Errorf "create sqliteDb database error: " createErr
          { inst := s, world := w
            trace := t ++ [.osCreate path, .logError lg err.msg dataSource]
            out := .returned (some err) }
        | none =>
          Init.connect env { files := path :: w.files } s options lg db (t ++ [.osCreate path])

/-- What a factory hands back: `(rdb, nil)`, `(nil, err)`, or a panic that escapes. -/
inductive FactoryResult where
  | ok (db : sqliteDb)
  | error (err : GoError)
  | panicked
  deriving DecidableEq, Repr

/-- The result of running a factory. -/
structure FactoryRun where
  world : World
  trace : List Event
  result : FactoryResult
  deriving DecidableEq, Repr

/-- The deprecated factory `NewSqliteDb`. -/
def NewSqliteDb (env : Env) (w : World) (config : Config) (models : List Model) :
    FactoryRun :=
  let r := Init env w sqliteDb.zero (env.convertConfigToOptions config)
  match r.out with
  | .panicked => { world := r.world, trace := r.trace, result := .panicked }
  | .returned (some initErr) =>
    { world := r.world, trace := r.trace
      result := .error (Errorf "init sqliteDb database error: " initErr) }
  | .returned none =>
    match env.migrate r.inst models with
    | some migrateErr =>
      { world := r.world, trace := r.trace ++ [.migrate models]
        result := .error (Errorf "migrate sqliteDb database error: " migrateErr) }
    | none =>
      { world := r.world, trace := r.trace ++ [.migrate models], result := .ok r.inst }

/-- The factory `NewSQLiteV2`. -/
def NewSQLiteV2 (env : Env) (w : World) (config : Config) (models : List Model) :
    FactoryRun :=
  let r := Init env w sqliteDb.zero (env.convertConfigToOptions config)
  match r.out with
  | .panicked => { world := r.world, trace := r.trace, result := .panicked }
  | .returned (some initErr) =>
    { world := r.world, trace := r.trace
      result := .error (Errorf "init sqliteDb database error: " initErr) }
  | .returned none =>
    match env.migrate r.inst models with
    | some migrateErr =>
      { world := r.world, trace := r.trace ++ [.migrate models]
        result := .error (Errorf "migrate sqliteDb database error: " migrateErr) }
    | none =>
      { world := r.world, trace := r.trace ++ [.migrate models], result := .ok r.inst }

/-- The factory `NewWithLogger`: as `NewSQLiteV2`, with the logger of the options
replaced by the given one (which may be nil). -/
def NewWithLogger (env : Env) (w : World) (config : Config) (logger : Option LoggerRef)
    (models : List Model) : FactoryRun :=
  let opts := env.convertConfigToOptions config
  let opts : Options := { opts with Logger := logger }
  let r := Init env w sqliteDb.zero opts
  match r.out with
  | .panicked => { world := r.world, trace := r.trace, result := .panicked }
  | .returned (some initErr) =>
    { world := r.world, trace := r.trace
      result := .error (Errorf "init sqliteDb database error: " initErr) }
  | .returned none =>
    match env.migrate r.inst models with
    | some migrateErr =>
      { world := r.world, trace := r.trace ++ [.migrate models]
        result := .error (Errorf "migrate sqliteDb database error: " migrateErr) }
    | none =>
      { world := r.world, trace := r.trace ++ [.migrate models], result := .ok r.inst }

/-! ## Two callers of `Init` on one instance

`Init` takes no lock.  Two callers of `Init` on the same instance are modelled by
interleaving their steps on the shared instance and disk.  A caller takes three
steps: the read of the flag at line 26, the write of the flag at line 29, and lines
32 to 72, taken in one piece. -/

/-- Lines 32 to 72 of `driver.go`: what a caller does after it has read the flag as
false and set it.  These lines do not read the flag again. -/
def Init.rest (env : Env) (w : World) (s : sqliteDb) (options : Options) : Run :=
  let lg : LoggerRef := match options.Logger with
    | none => env.defaultLogger
    | some l => l
  let options : Options := { options with Logger := some lg }
  let dataSource := options.DataSource
  let s : sqliteDb :=
    { s with BaseDatabaseImplement := { s.BaseDatabaseImplement with Logger := some lg } }
  let t : List Event :=
    [.logInfo lg "start open sqliteDb database" dataSource, .gormOpen dataSource]
  match env.gormOpen w dataSource with
  | (db, none) => Init.connect env w s options lg db t
  | (db, some openErr) =>
    if !openErr.notExist then
      let err := Errorf "open sqliteDb database error: " openErr
      { inst := s, world := w, trace := t ++ [.logError lg err.msg dataSource]
        out := .returned (some err) }
    else
      let path := env.filepathJoin "data" dataSource
      match env.osCreate w path with
      | some createErr =>
        let err := Errorf "create sqliteDb database error: " createErr
        { inst := s, world := w
          trace := t ++ [.osCreate path, .logError lg err.msg dataSource]
          out := .returned (some err) }
      | none =>
        Init.connect env { files := path :: w.files } s options lg db (t ++ [.osCreate path])

/-- Where a caller of `Init` stands: before the read of the flag (line 26), before the
write of the flag (line 29), before the rest (line 32), or returned. -/
inductive Pc where
  | check
  | mark
  | rest
  | done (out : Outcome)
  deriving DecidableEq, Repr

/-- A caller of `Init`: its options, where it stands, and the calls it has made on the
collaborators. -/
structure Caller where
  options : Options
  pc : Pc
  trace : List Event
  deriving DecidableEq, Repr

/-- What the callers share: the instance and the disk. -/
structure Shared where
  inst : sqliteDb
  world : World
  deriving DecidableEq, Repr

/-- One step of a caller on the shared state. -/
def Caller.step (env : Env) (sh : Shared) (c : Caller) : Shared × Caller :=
  match c.pc with
  | .check =>
    if sh.inst.initialized then (sh, { c with pc := .done (.returned none) })
    else (sh, { c with pc := .mark })
  | .mark => ({ sh with inst := { sh.inst with initialized := true } }, { c with pc := .rest })
  | .rest =>
    let r := Init.rest env sh.world sh.inst c.options
    ({ inst := r.inst, world := r.world }, { c with pc := .done r.out, trace := r.trace })
  | .done _ => (sh, c)

/-- Two callers and what they share. -/
structure Race where
  shared : Shared
  first : Caller
  second : Caller
  deriving DecidableEq, Repr

/-- Two callers about to call `Init` on the instance `s`. -/
def Race.start (w : World) (s : sqliteDb) (o₁ o₂ : Options) : Race :=
  { shared := { inst := s, world := w }
    first := { options := o₁, pc := .check, trace := [] }
    second := { options := o₂, pc := .check, trace := [] } }

/-- One step of the race: the second caller moves if `who` is true, the first if not. -/
def Race.step (env : Env) (r : Race) (who : Bool) : Race :=
  if who then
    let (sh, c) := Caller.step env r.shared r.second
    { r with shared := sh, second := c }
  else
    let (sh, c) := Caller.step env r.shared r.first
    { r with shared := sh, first := c }

/-- The race under a schedule, the list of who moves next. -/
def Race.run (env : Env) (r : Race) (schedule : List Bool) : Race :=
  schedule.foldl (Race.step env) r

/-! ## Observations on runs -/

/-- Is the event a call of the engine open? -/
def Event.isOpen : Event → Bool
  | .gormOpen _ => true
  | _ => false

/-- Is the event a file creation? -/
def Event.isCreate : Event → Bool
  | .osCreate _ => true
  | _ => false

/-- Is the event a registration with the exit registry? -/
def Event.isRegister : Event → Bool
  | .registerExitEvent _ _ => true
  | _ => false

/-- Is the event a call of `Migrate`? -/
def Event.isMigrate : Event → Bool
  | .migrate _ => true
  | _ => false

/-- Number of engine opens in a trace. -/
def openCount (t : List Event) : Nat := t.countP Event.isOpen

/-- Number of file creations in a trace. -/
def createCount (t : List Event) : Nat := t.countP Event.isCreate

/-- Number of exit-registry registrations in a trace. -/
def registerCount (t : List Event) : Nat := t.countP Event.isRegister

/-- Number of `Migrate` calls in a trace. -/
def migrateCount (t : List Event) : Nat := t.countP Event.isMigrate

/-- Is the event a call of `ParseDatabaseOptions`, which applies the pool settings? -/
def Event.isParse : Event → Bool
  | .parseDatabaseOptions _ _ => true
  | _ => false

/-- Number of times a trace applies pool settings. -/
def parseCount (t : List Event) : Nat := t.countP Event.isParse

/-- The names under which a trace registers exit callbacks, in order. -/
def registeredNames : List Event → List String
  | [] => []
  | .registerExitEvent name _ :: t => name :: registeredNames t
  | _ :: t => registeredNames t

/-- The logger `Init` binds: the one of the options, or `logger.Default()`. -/
def boundLogger (env : Env) (o : Options) : LoggerRef :=
  match o.Logger with
  | none => env.defaultLogger
  | some l => l

/-- The instance after lines 29 and 36: flag set, logger bound. -/
def started (env : Env) (s : sqliteDb) (o : Options) : sqliteDb :=
  { s with
    initialized := true
    BaseDatabaseImplement := { s.BaseDatabaseImplement with Logger := some (boundLogger env o) } }

/-- The options after line 33. -/
def withLogger (env : Env) (o : Options) : Options :=
  { o with Logger := some (boundLogger env o) }

/-- The first two events of every first `Init`. -/
def opening (env : Env) (o : Options) : List Event :=
  [.logInfo (boundLogger env o) "start open sqliteDb database" o.DataSource,
   .gormOpen o.DataSource]

/-- The text `sub` occurs in the text `s`. -/
def occursIn (sub s : String) : Prop := sub.data <:+: s.data

/-- A caller that has read the flag as false: it is on its way to the rest with no
call made yet, or it has returned after exactly one engine open, and after exactly
one registration if it returned nil. -/
def Caller.passed (c : Caller) : Prop :=
  ((c.pc = .mark ∨ c.pc = .rest) ∧ c.trace = []) ∨
  (∃ out, c.pc = .done out ∧ openCount c.trace = 1 ∧
    (out = .returned none → registerCount c.trace = 1))

/-- A caller that starts after the flag is set: it has not read the flag yet, or it
has returned nil; in either case it has made no call. -/
def Caller.late (c : Caller) : Prop :=
  (c.pc = .check ∨ c.pc = .done (.returned none)) ∧ c.trace = []

/-- The engine always hands back a handle, with or without an error, as `gorm.Open`
does: it allocates the `*gorm.DB` before it initialises the dialector and returns it
together with the error. -/
def Env.handsBackHandle (env : Env) : Prop :=
  ∀ w dataSource, (env.gormOpen w dataSource).1.isSome = true

/-! ## Sample environments -/

/-- A join that is right for a plain file name: `filepath.Join("data", "app.db")` is
`"data/app.db"`. -/
def joinPlain (a b : String) : String := a ++ "/" ++ b

/-- The field-by-field conversion of a configuration, with no logger. -/
def convertPlain (c : Config) : Options :=
  { DataSource := c.DataSource, Logger := none, PoolMin := c.PoolMin, PoolMax := c.PoolMax
    ConnMaxIdle := c.ConnMaxIdle, ConnMaxLifetime := c.ConnMaxLifetime }

/-- An engine that opens every data source, each with a handle of its own. -/
def envOk : Env :=
  { defaultLogger := 0
    gormOpen := fun _ ds => (some ds.length, none)
    filepathJoin := joinPlain
    osCreate := fun _ _ => none
    dbDB := fun h => .ok (h + 100)
    convertConfigToOptions := convertPlain
    migrate := fun _ _ => none }

/-- An engine that refuses every open with "permission denied". -/
def envDenied : Env :=
  { envOk with gormOpen := fun _ _ => (none, some ⟨"permission denied", false⟩) }

/-- An engine that reports every data source as absent and hands back, with the
error, a handle that is of no use: no native pool handle can be obtained from it. -/
def envAbsentUnusable : Env :=
  { envOk with
    gormOpen := fun _ _ => (some 1, some ⟨"no such file or directory", true⟩)
    dbDB := fun _ => .error ⟨"invalid db", false⟩ }

/-- An engine that reports every data source as absent, on a disk where no file can
be created. -/
def envReadOnly : Env :=
  { envOk with
    gormOpen := fun _ _ => (none, some ⟨"no such file or directory", true⟩)
    osCreate := fun _ _ => some ⟨"read-only file system", false⟩ }

/-- An engine that opens every data source with a handle whose native pool handle
cannot be obtained. -/
def envNoPool : Env :=
  { envOk with dbDB := fun _ => .error ⟨"invalid db", false⟩ }

/-- An engine that looks for the data source on disk: it opens a path that exists,
and reports a path that does not exist as absent (the handle it hands back is not
nil in either case). -/
def envFiles : Env :=
  { envOk with
    gormOpen := fun w ds =>
      if ds ∈ w.files then (some 1, none)
      else (some 1, some ⟨"no such file or directory", true⟩) }

/-- Options naming a data source, everything else unset. -/
def optionsFor (ds : String) : Options :=
  { DataSource := ds, Logger := none, PoolMin := none, PoolMax := none
    ConnMaxIdle := none, ConnMaxLifetime := none }

/-- A configuration naming a data source, everything else unset. -/
def configFor (ds : String) : Config :=
  { DataSource := ds, PoolMin := none, PoolMax := none
    ConnMaxIdle := none, ConnMaxLifetime := none }

end sqlite

namespace text

/-! ## `text/encoding.go`

Go strings and byte slices are lists of bytes.  The AES block function and the random
source are parameters; CFB mode and the standard base64 encoding follow the Go
standard library. -/

/-- A Go byte. -/
abbrev Byte := Fin 256

/-- The conversion `byte(n)`. -/
def toByte (n : Nat) : Byte := ⟨n % 256, Nat.mod_lt _ (by decide)⟩

/-- The bytes of a text of ASCII characters. -/
def bytesOf (s : String) : List Byte := s.toList.map fun c => toByte c.toNat

/-- The errors the two functions can return: the key size error of `aes.NewCipher`, an
error of `rand.Read`, the corrupt-input error of the base64 decoder (its offset is
not modelled), and "encrypted message too short". -/
inductive Err where
  | KeySizeError (k : Nat)
  | randRead (msg : String)
  | CorruptInputError
  | tooShort
  deriving DecidableEq, Repr

/-- The constant `aes.BlockSize`. -/
def BlockSize : Nat := 16

/-- The AES block function, a parameter of the model: `encrypt key src` is the block
that `Encrypt` writes for the block `src` under the key `key`, `BlockSize` bytes
long. -/
structure AES where
  encrypt : List Byte → List Byte → List Byte
  encrypt_length : ∀ key src, (encrypt key src).length = BlockSize

/-- The function `aes.NewCipher`: a key size error unless the key is 16, 24 or 32
bytes long; the block it returns is represented by its key. -/
def NewCipher (key : List Byte) : Except Err (List Byte) :=
  if key.length = 16 ∨ key.length = 24 ∨ key.length = 32 then .ok key
  else .error (.KeySizeError key.length)

/-- The function `subtle.XORBytes`: the bytewise xor, as long as the shorter operand. -/
def XORBytes (x y : List Byte) : List Byte := List.zipWith (· ^^^ ·) x y

/-- The method `XORKeyStream` of `cipher.NewCFBEncrypter(block, next)`: while input
is left, the key stream block is the encryption of `next`, the output chunk is the
input chunk xored with it, and the output chunk is copied over the front of
`next`. -/
def cfbEncrypt (aes : AES) (key : List Byte) (next src : List Byte) : List Byte :=
  match src with
  | [] => []
  | b :: rest =>
    let out := aes.encrypt key next
    let dst := XORBytes ((b :: rest).take BlockSize) out
    dst ++ cfbEncrypt aes key (dst ++ next.drop dst.length) ((b :: rest).drop BlockSize)
termination_by src.length
decreasing_by
  simp only [List.length_drop, List.length_cons, BlockSize]
  omega

/-- The method `XORKeyStream` of `cipher.NewCFBDecrypter(block, next)`: as for the
encrypter, except that the input chunk is what is copied over the front of `next`. -/
def cfbDecrypt (aes : AES) (key : List Byte) (next src : List Byte) : List Byte :=
  match src with
  | [] => []
  | b :: rest =>
    let out := aes.encrypt key next
    let chunk := (b :: rest).take BlockSize
    let dst := XORBytes chunk out
    dst ++ cfbDecrypt aes key (chunk ++ next.drop chunk.length) ((b :: rest).drop BlockSize)
termination_by src.length
decreasing_by
  simp only [List.length_drop, List.length_cons, BlockSize]
  omega

/-- The alphabet of `base64.StdEncoding`. -/
def encodeStd : List Byte :=
  bytesOf "ABCDEFGHIJKLMNOPQRSTUVWXYZabcdefghijklmnopqrstuvwxyz0123456789+/"

/-- The padding character `=` of `base64.StdEncoding`. -/
def StdPadding : Byte := 61

/-- The table `enc.encode`: the character of a 6-bit value. -/
def encode (i : Nat) : Byte := encodeStd.getD i 0

/-- The table `enc.decodeMap`: the 6-bit value of a character of the alphabet, none
(0xff in Go) for any other byte. -/
def decodeMap (c : Byte) : Option Nat :=
  let i := encodeStd.indexOf c
  if i < 64 then some i else none

/-- The method `base64.StdEncoding.EncodeToString`: three bytes make a 24-bit value
written as four characters; a remainder of one or two bytes is written as two or
three characters and padded to four. -/
def EncodeToString : List Byte → List Byte
  | [] => []
  | [a] =>
    let val := a.val * 65536
    [encode (val / 262144 % 64), encode (val / 4096 % 64), StdPadding, StdPadding]
  | [a, b] =>
    let val := a.val * 65536 + b.val * 256
    [encode (val / 262144 % 64), encode (val / 4096 % 64), encode (val / 64 % 64), StdPadding]
  | a :: b :: c :: rest =>
    let val := a.val * 65536 + b.val * 256 + c.val
    encode (val / 262144 % 64) :: encode (val / 4096 % 64) :: encode (val / 64 % 64) ::
      encode (val % 64) :: EncodeToString rest

/-- The end of `decodeQuantum`: the four 6-bit values make a 24-bit value, of which
the first `dlen - 1` bytes are written. -/
def quantum (d0 d1 d2 d3 : Nat) (dlen : Nat) : List Byte :=
  let val := d0 * 262144 + d1 * 4096 + d2 * 64 + d3
  [toByte (val / 65536), toByte (val / 256), toByte val].take (dlen - 1)

/-- Is the byte a line feed or a carriage return? The decoder skips both. -/
def isNewline (c : Byte) : Bool := c = 10 || c = 13

/-- The loop "skip over newlines" of `decodeQuantum`. -/
def skipNewlines : List Byte → List Byte
  | [] => []
  | c :: rest => if isNewline c then skipNewlines rest else c :: rest

/-- The method `Decode` of `base64.StdEncoding`, quantum by quantum; `dbuf` holds the
6-bit values read so far in the current quantum.  The input may end between two
quanta only; padding is accepted after two or three values, closes the input, and
may be followed by newlines only. -/
def decodeLoop : List Nat → List Byte → Except Err (List Byte)
  | dbuf, [] => if dbuf = [] then .ok [] else .error .CorruptInputError
  | dbuf, c :: rest =>
    match decodeMap c with
    | some out =>
      match dbuf with
      | [d0, d1, d2] =>
        match decodeLoop [] rest with
        | .ok bs => .ok (quantum d0 d1 d2 out 4 ++ bs)
        | .error e => .error e
      | _ => decodeLoop (dbuf ++ [out]) rest
    | none =>
      if isNewline c then decodeLoop dbuf rest
      else if c ≠ StdPadding then .error .CorruptInputError
      else
        match dbuf with
        | [d0, d1] =>
          match skipNewlines rest with
          | [] => .error .CorruptInputError
          | c2 :: rest2 =>
            if c2 ≠ StdPadding then .error .CorruptInputError
            else if skipNewlines rest2 ≠ [] then .error .CorruptInputError
            else .ok (quantum d0 d1 0 0 2)
        | [d0, d1, d2] =>
          if skipNewlines rest ≠ [] then .error .CorruptInputError
          else .ok (quantum d0 d1 d2 0 3)
        | _ => .error .CorruptInputError

/-- The method `base64.StdEncoding.DecodeString`. -/
def DecodeString (s : List Byte) : Except Err (List Byte) := decodeLoop [] s

/-- The function `EncryptMessageWithAES`.  `randRead` is what `rand.Read(iv)` does to
the 16-byte slice `iv`: an error, or the bytes it fills it with.  The result is the
pair `(encrypted, err)`. -/
def EncryptMessageWithAES (aes : AES) (randRead : Except Err (List Byte))
    (message secret : List Byte) : List Byte × Option Err :=
  match NewCipher secret with
  | .error buildAesBlockErr => ([], some buildAesBlockErr)
  | .ok block =>
    let plainTextBytes := message
    match randRead with
    | .error buildIvErr => ([], some buildIvErr)
    | .ok iv =>
      let cipherText := iv ++ cfbEncrypt aes block iv plainTextBytes
      let encryptedString := EncodeToString cipherText
      (encryptedString, none)

/-- The function `DecryptMessageWithAES`.  The result is the pair `(decrypted, err)`. -/
def DecryptMessageWithAES (aes : AES) (encrypted secret : List Byte) :
    List Byte × Option Err :=
  match NewCipher secret with
  | .error buildAesBlockErr => ([], some buildAesBlockErr)
  | .ok block =>
    match DecodeString encrypted with
    | .error decodeErr => ([], some decodeErr)
    | .ok encryptedBytes =>
      if encryptedBytes.length < BlockSize then ([], some .tooShort)
      else
        let iv := encryptedBytes.take BlockSize
        let encryptedBytes := encryptedBytes.drop BlockSize
        (cfbDecrypt aes block iv encryptedBytes, none)

/-- A block function to run the model on: the block and the key, each filled up to
16 bytes, xored. -/
def toyAES : AES :=
  { encrypt := fun key src =>
      (XORBytes (src ++ List.replicate BlockSize 7)
        (key ++ List.replicate BlockSize 1)).take BlockSize
    encrypt_length := by
      intro key src
      simp [XORBytes, BlockSize] }

end text

namespace openai

/-! ## `thirdparty/openai/model.go` -/

/-- The string type `AvailableFineTuningModelEnum`. -/
abbrev AvailableFineTuningModelEnum := String

/-- The method `String` of `AvailableFineTuningModelEnum`. -/
def AvailableFineTuningModelEnum.String (afme : AvailableFineTuningModelEnum) : String :=
  afme

/-- The constant `AvailableFineTuningModelEnumGPT35`, commented in the source as the
gpt3.5 model "(default)". -/
def AvailableFineTuningModelEnumGPT35 : AvailableFineTuningModelEnum := "gpt-3.5-turbo-1106"

/-- The constant `AvailableFineTuningModelEnumDavinci`. -/
def AvailableFineTuningModelEnumDavinci : AvailableFineTuningModelEnum := "davinci-002"

/-- The map `supportedAvailableFineTuningModelEnum`, as the list of its entries. -/
def supportedAvailableFineTuningModelEnum : List (String × AvailableFineTuningModelEnum) :=
  [(AvailableFineTuningModelEnumGPT35.String, AvailableFineTuningModelEnumGPT35),
   (AvailableFineTuningModelEnumDavinci.String, AvailableFineTuningModelEnumDavinci)]

/-- The function `getAvailableFineTuningModelEnum`. -/
def getAvailableFineTuningModelEnum (enum : AvailableFineTuningModelEnum) : String :=
  match supportedAvailableFineTuningModelEnum.lookup enum.String with
  | none => AvailableFineTuningModelEnumDavinci.String
  | some _ => enum.String

/-- The Go value that `json.Unmarshal(data, &contentBuffer)` leaves in a variable of
type `any`: nil, a bool, a float64, a string, a slice or a map.  Only the string is
looked into. -/
inductive Any where
  | null
  | bool (b : Bool)
  | number
  | string (s : String)
  | array
  | object
  deriving DecidableEq, Repr

/-- The anonymous struct field `ImageUrl` of an element of `imageContent`. -/
structure ImageUrl where
  Detail : String
  Url : String
  deriving DecidableEq, Repr

/-- An element of the local slice type `imageContent`; `Type'` is its field `Type`. -/
structure ContentPart where
  Text : String
  Type' : String
  ImageUrl : ImageUrl
  deriving DecidableEq, Repr

/-- The package `encoding/json` as far as `GetStringContent` uses it, a parameter of
the model.  `unmarshalAny data` is `json.Unmarshal(data, &contentBuffer)` for a
variable of type `any`, and `unmarshalImageContent data` is `json.Unmarshal(data,
&obj)` for an empty `imageContent`; none is an error.  The two laws are the decoding
rules of the package for a slice target: JSON null leaves the slice empty without an
error, and a bool, a number, a string or an object is a type error. -/
structure JSON where
  unmarshalAny : String → Option Any
  unmarshalImageContent : String → Option (List ContentPart)
  null_into_slice : ∀ data, unmarshalAny data = some .null →
    unmarshalImageContent data = some []
  mismatch_into_slice : ∀ data v, unmarshalAny data = some v →
    v ≠ .null → v ≠ .array → unmarshalImageContent data = none

/-- The struct `ChatMessageObject`; `Content` is the raw JSON text. -/
structure ChatMessageObject where
  Role : String
  Content : String
  deriving DecidableEq, Repr

/-- The loop at the end of `GetStringContent`: the `Text` of the first item whose
`Type` is "text". -/
def firstText : List ContentPart → Option String
  | [] => none
  | item :: rest => if item.Type' = "text" then some item.Text else firstText rest

/-- The method `(*ChatMessageObject).GetStringContent`. -/
def GetStringContent (json : JSON) (co : ChatMessageObject) : String :=
  match json.unmarshalAny co.Content with
  | none => co.Content
  | some contentBuffer =>
    match contentBuffer with
    | .string content => content
    | _ =>
      match json.unmarshalImageContent co.Content with
      | none => co.Content
      | some obj =>
        match firstText obj with
        | some text => text
        | none => co.Content

/-- The JSON text of an array of two content parts, the second of type "text". -/
def sampleParts : String :=
  "[\x7b\"type\":\"image_url\"\x7d,\x7b\"type\":\"text\",\"text\":\"hi\"\x7d]"

/-- A decoder to run the model on.  It knows four texts: a string literal, an array of
two content parts, the literal null and a number; every other text is an error. -/
def toyJSON : JSON :=
  { unmarshalAny := fun data =>
      if data = "\"hello\"" then some (.string "hello")
      else if data = sampleParts then
        some .array
      else if data = "null" then some .null
      else if data = "42" then some .number
      else none
    unmarshalImageContent := fun data =>
      if data = sampleParts then
        some [{ Text := "", Type' := "image_url", ImageUrl := { Detail := "", Url := "" } },
              { Text := "hi", Type' := "text", ImageUrl := { Detail := "", Url := "" } }]
      else if data = "null" then some []
      else none
    null_into_slice := by
      intro data h
      beta_reduce at h ⊢
      split_ifs at h with h1 h2 h3 h4
      · cases h
      · cases h
      · subst h3; rfl
      · cases h
    mismatch_into_slice := by
      intro data v h hn ha
      beta_reduce at h ⊢
      split_ifs at h with h1 h2 h3 h4
      · subst h1; rfl
      · simp only [Option.some.injEq] at h; exact absurd h.symm ha
      · simp only [Option.some.injEq] at h; exact absurd h.symm hn
      · subst h4; rfl }

end openai

namespace database

/-! ## `database/functions.go`

A `reflect.Value` is modelled by what the three functions can see of it: its kind,
what a pointer points to, and the length of a slice or map.  Pointer chains are
finite. -/

/-- The kinds of `reflect.Kind` that the functions tell apart. -/
inductive Kind where
  | Invalid
  | Ptr
  | Slice
  | Map
  | Interface
  | Other
  deriving DecidableEq, Repr

/-- A `reflect.Value`: the zero Value (of `reflect.ValueOf(nil)`, and of `Elem` on a
nil pointer), a pointer with the Value `Elem` gives, an interface reached through a
pointer, a slice or a map of some length (a nil slice or map has length 0), or a
value of any other kind. -/
inductive Value where
  | invalid
  | ptr (elem : Value)
  | iface (elem : Value)
  | slice (len : Nat)
  | map (len : Nat)
  | other
  deriving DecidableEq, Repr

/-- A nil pointer: `Elem` gives the zero Value. -/
def Value.nilPtr : Value := .ptr .invalid

/-- The method `Kind`. -/
def Value.Kind : Value → Kind
  | .invalid => .Invalid
  | .ptr _ => .Ptr
  | .iface _ => .Interface
  | .slice _ => .Slice
  | .map _ => .Map
  | .other => .Other

/-- The method `Len`: it panics (none) unless the value has a length. -/
def Value.Len : Value → Option Nat
  | .slice len => some len
  | .map len => some len
  | _ => none

/-- The loop `for v.Kind() == reflect.Ptr { v = v.Elem() }`. -/
def indirect : Value → Value
  | .ptr elem => indirect elem
  | v => v

/-- The function `FromSlice`; its argument is `reflect.ValueOf(s)`. -/
def FromSlice (s : Value) : Bool :=
  let v := indirect s
  v.Kind = .Slice

/-- The function `EmptySlice`; none is a panic.  `Len` is called only when the kind is
`Slice`. -/
def EmptySlice (s : Value) : Option Bool :=
  let v := indirect s
  if v.Kind = .Slice then
    match v.Len with
    | some n => some (n = 0)
    | none => none
  else some false

/-- The function `FromMap`; its argument is `reflect.ValueOf(m)`. -/
def FromMap (m : Value) : Bool :=
  let v := indirect m
  v.Kind = .Map

/-- A chain of `n` pointers ending in `v`. -/
def pointerTo : Nat → Value → Value
  | 0, v => v
  | n + 1, v => .ptr (pointerTo n v)

end database

namespace sqlite

/-! ## The cases of `Init` -/

theorem connect_initialized (env : Env) (w : World) (s : sqliteDb) (o : Options)
    (lg : LoggerRef) (db : Option GormDB) (t : List Event) :
    (Init.connect env w s o lg db t).inst.initialized = s.initialized := by
  unfold Init.connect
  cases db with
  | none => rfl
  | some h =>
    simp only
    cases env.dbDB h <;> rfl

theorem connect_openCount (env : Env) (w : World) (s : sqliteDb) (o : Options)
    (lg : LoggerRef) (db : Option GormDB) (t : List Event) :
    openCount (Init.connect env w s o lg db t).trace = openCount t := by
  unfold Init.connect
  cases db with
  | none => rfl
  | some h =>
    simp only
    cases env.dbDB h <;> simp [openCount, Event.isOpen, List.countP_append, List.countP_cons]

theorem Init_initialized (env : Env) (w : World) (s : sqliteDb) (o : Options) :
    (Init env w s o).inst.initialized = true := by
  unfold Init
  by_cases h : s.initialized = true
  · simp [h]
  · simp only [h]
    simp only [Bool.false_eq_true, if_false]
    split
    · rw [connect_initialized]
    · split
      · rfl
      · split
        · rfl
        · rw [connect_initialized]

theorem Init_again (env : Env) (w : World) (s : sqliteDb) (o : Options)
    (h : s.initialized = true) :
    Init env w s o = { inst := s, world := w, trace := [], out := .returned none } := by
  simp [Init, h]

theorem Init_opened (env : Env) (w : World) (s : sqliteDb) (o : Options)
    (h : s.initialized = false) (db : Option GormDB)
    (ho : env.gormOpen w o.DataSource = (db, none)) :
    Init env w s o =
      Init.connect env w (started env s o) (withLogger env o) (boundLogger env o) db
        (opening env o) := by
  simp [Init, h, ho, started, withLogger, boundLogger, opening]

theorem Init_open_fatal (env : Env) (w : World) (s : sqliteDb) (o : Options)
    (h : s.initialized = false) (db : Option GormDB) (e : GoError)
    (ho : env.gormOpen w o.DataSource = (db, some e)) (hn : e.notExist = false) :
    Init env w s o =
      { inst := started env s o, world := w
        trace := opening env o ++
          [.logError (boundLogger env o) ("open sqliteDb database error: " ++ e.msg) o.DataSource]
        out := .returned (some (Errorf "open sqliteDb database error: " e)) } := by
  simp [Init, h, ho, hn, started, boundLogger, opening, Errorf]

theorem Init_create_fatal (env : Env) (w : World) (s : sqliteDb) (o : Options)
    (h : s.initialized = false) (db : Option GormDB) (e ce : GoError)
    (ho : env.gormOpen w o.DataSource = (db, some e)) (hn : e.notExist = true)
    (hc : env.osCreate w (env.filepathJoin "data" o.DataSource) = some ce) :
    Init env w s o =
      { inst := started env s o, world := w
        trace := opening env o ++
          [.osCreate (env.filepathJoin "data" o.DataSource),
           .logError (boundLogger env o) ("create sqliteDb database error: " ++ ce.msg)
             o.DataSource]
        out := .returned (some (Errorf "create sqliteDb database error: " ce)) } := by
  simp [Init, h, ho, hn, hc, started, boundLogger, opening, Errorf]

theorem Init_recovered (env : Env) (w : World) (s : sqliteDb) (o : Options)
    (h : s.initialized = false) (db : Option GormDB) (e : GoError)
    (ho : env.gormOpen w o.DataSource = (db, some e)) (hn : e.notExist = true)
    (hc : env.osCreate w (env.filepathJoin "data" o.DataSource) = none) :
    Init env w s o =
      Init.connect env { files := env.filepathJoin "data" o.DataSource :: w.files }
        (started env s o) (withLogger env o) (boundLogger env o) db
        (opening env o ++ [.osCreate (env.filepathJoin "data" o.DataSource)]) := by
  simp [Init, h, ho, hn, hc, started, withLogger, boundLogger, opening]

theorem connect_nil (env : Env) (w : World) (s : sqliteDb) (o : Options)
    (lg : LoggerRef) (t : List Event) :
    Init.connect env w s o lg none t =
      { inst := s, world := w, trace := t, out := .panicked } := rfl

theorem connect_pool_fatal (env : Env) (w : World) (s : sqliteDb) (o : Options)
    (lg : LoggerRef) (t : List Event) (h : GormDB) (dbe : GoError)
    (hd : env.dbDB h = .error dbe) :
    Init.connect env w s o lg (some h) t =
      { inst := s, world := w, trace := t ++ [.setDbLogger h lg, .dbDB h]
        out := .returned (some (Errorf "get sqliteDb database error: " dbe)) } := by
  simp [Init.connect, hd]

theorem connect_ok (env : Env) (w : World) (s : sqliteDb) (o : Options)
    (lg : LoggerRef) (t : List Event) (h : GormDB) (sqlDb : SqlDB)
    (hd : env.dbDB h = .ok sqlDb) :
    Init.connect env w s o lg (some h) t =
      { inst :=
          { s with
            BaseDatabaseImplement :=
              { s.BaseDatabaseImplement with
                Db := some h, randCommand := "random()", driverName := DriverName }
            BaseDatabaseImplementV2 := { Db := some h } }
        world := w
        trace := t ++ [.setDbLogger h lg, .dbDB h] ++
          [.parseDatabaseOptions sqlDb o,
           .logInfo lg "successfully open sqliteDb database" o.DataSource,
           .registerExitEvent "CLOSE_SQLITE_DB_CONN" sqlDb]
        out := .returned none } := by
  simp [Init.connect, hd]

theorem Init_openCount (env : Env) (w : World) (s : sqliteDb) (o : Options)
    (h : s.initialized = false) : openCount (Init env w s o).trace = 1 := by
  rcases hg : env.gormOpen w o.DataSource with ⟨db, _ | e⟩
  · rw [Init_opened env w s o h db hg, connect_openCount]; rfl
  · cases hn : e.notExist
    · rw [Init_open_fatal env w s o h db e hg hn]; rfl
    · cases hc : env.osCreate w (env.filepathJoin "data" o.DataSource) with
      | some ce => rw [Init_create_fatal env w s o h db e ce hg hn hc]; rfl
      | none => rw [Init_recovered env w s o h db e hg hn hc, connect_openCount]; rfl

/-- C1: on an instance whose `initialized` flag is already true, `Init` returns nil
for every options value, makes no call on any collaborator (no engine open, no file
creation, no registration) and leaves the instance and the world as they were; hence
on an instance whose flag is false, a first `Init` followed by a second one, with the
same or with different options, opens the engine exactly once. -/
theorem Init_idempotent (env : Env) (w : World) (s : sqliteDb) (o₁ o₂ : Options) :
    (s.initialized = true →
      Init env w s o₁ = { inst := s, world := w, trace := [], out := .returned none }) ∧
    (s.initialized = false →
      Init env (Init env w s o₁).world (Init env w s o₁).inst o₂ =
        { inst := (Init env w s o₁).inst, world := (Init env w s o₁).world, trace := []
          out := .returned none } ∧
      openCount ((Init env w s o₁).trace ++
        (Init env (Init env w s o₁).world (Init env w s o₁).inst o₂).trace) = 1) := by
  refine ⟨Init_again env w s o₁, fun h => ?_⟩
  have h2 := Init_again env (Init env w s o₁).world (Init env w s o₁).inst o₂
    (Init_initialized env w s o₁)
  refine ⟨h2, ?_⟩
  rw [h2, List.append_nil]
  exact Init_openCount env w s o₁ h

/-- Witness of C1: an instance already initialised with data source "a.db" ignores
the options for "b.db"; and two calls on the zero instance open the engine once. -/
theorem Init_idempotent_witness :
    Init envOk ⟨[]⟩ (Init envOk ⟨[]⟩ sqliteDb.zero (optionsFor "a.db")).inst (optionsFor "b.db") =
      { inst := (Init envOk ⟨[]⟩ sqliteDb.zero (optionsFor "a.db")).inst, world := ⟨[]⟩
        trace := [], out := .returned none } ∧
    openCount ((Init envOk ⟨[]⟩ sqliteDb.zero (optionsFor "a.db")).trace ++
        (Init envOk (Init envOk ⟨[]⟩ sqliteDb.zero (optionsFor "a.db")).world
          (Init envOk ⟨[]⟩ sqliteDb.zero (optionsFor "a.db")).inst (optionsFor "b.db")).trace) = 1 :=
  ⟨(Init_idempotent envOk ⟨[]⟩ (Init envOk ⟨[]⟩ sqliteDb.zero (optionsFor "a.db")).inst
      (optionsFor "b.db") (optionsFor "b.db")).1 (by decide),
   ((Init_idempotent envOk ⟨[]⟩ sqliteDb.zero (optionsFor "a.db") (optionsFor "b.db")).2
      (by decide)).2⟩

/-- Counterexample to C2: when the engine refuses the open with "permission denied",
`Init` on the zero instance returns an error, the flag is true all the same, and no
handle is set: flag and handle do not go together. -/
theorem flag_true_without_handle :
    (Init envDenied ⟨[]⟩ sqliteDb.zero (optionsFor "app.db")).out =
      .returned (some ⟨"open sqliteDb database error: permission denied", false⟩) ∧
    ¬ ((Init envDenied ⟨[]⟩ sqliteDb.zero (optionsFor "app.db")).inst.initialized = true ↔
       (Init envDenied ⟨[]⟩ sqliteDb.zero
          (optionsFor "app.db")).inst.BaseDatabaseImplement.Db.isSome = true) := by
  decide

/-- C2 (amended): after `Init` on the zero instance the flag is true in every case,
set before the engine is opened; the handle of either base is set exactly when `Init`
returned nil.  So a set handle implies a true flag and no error, as the invariant of
the data model has it, while an `Init` that returns an error (or panics) leaves the
flag true and the handle unset. -/
theorem handle_set_iff_Init_succeeded (env : Env) (w : World) (o : Options) :
    (Init env w sqliteDb.zero o).inst.initialized = true ∧
    ((Init env w sqliteDb.zero o).inst.BaseDatabaseImplement.Db.isSome = true ↔
      (Init env w sqliteDb.zero o).out = .returned none) ∧
    ((Init env w sqliteDb.zero o).inst.BaseDatabaseImplementV2.Db.isSome = true ↔
      (Init env w sqliteDb.zero o).out = .returned none) := by
  refine ⟨Init_initialized _ _ _ _, ?_⟩
  have h : sqliteDb.zero.initialized = false := rfl
  have key : ∀ (w' : World) (db : Option GormDB) (t : List Event),
      ((Init.connect env w' (started env sqliteDb.zero o) (withLogger env o)
          (boundLogger env o) db t).inst.BaseDatabaseImplement.Db.isSome = true ↔
        (Init.connect env w' (started env sqliteDb.zero o) (withLogger env o)
          (boundLogger env o) db t).out = .returned none) ∧
      ((Init.connect env w' (started env sqliteDb.zero o) (withLogger env o)
          (boundLogger env o) db t).inst.BaseDatabaseImplementV2.Db.isSome = true ↔
        (Init.connect env w' (started env sqliteDb.zero o) (withLogger env o)
          (boundLogger env o) db t).out = .returned none) := by
    intro w' db t
    cases db with
    | none => simp [connect_nil, started, sqliteDb.zero]
    | some hd =>
      cases hp : env.dbDB hd with
      | error dbe => simp [connect_pool_fatal _ _ _ _ _ _ _ _ hp, started, sqliteDb.zero]
      | ok sqlDb => simp [connect_ok _ _ _ _ _ _ _ _ hp]
  rcases hg : env.gormOpen w o.DataSource with ⟨db, _ | e⟩
  · rw [Init_opened env w _ o h db hg]; exact key _ _ _
  · cases hn : e.notExist
    · rw [Init_open_fatal env w _ o h db e hg hn]; simp [started, sqliteDb.zero]
    · cases hc : env.osCreate w (env.filepathJoin "data" o.DataSource) with
      | some ce =>
        rw [Init_create_fatal env w _ o h db e ce hg hn hc]; simp [started, sqliteDb.zero]
      | none => rw [Init_recovered env w _ o h db e hg hn hc]; exact key _ _ _

theorem connect_migrateCount (env : Env) (w : World) (s : sqliteDb) (o : Options)
    (lg : LoggerRef) (db : Option GormDB) (t : List Event) :
    migrateCount (Init.connect env w s o lg db t).trace = migrateCount t := by
  unfold Init.connect
  cases db with
  | none => rfl
  | some h =>
    simp only
    cases env.dbDB h <;>
      simp [migrateCount, Event.isMigrate, List.countP_append, List.countP_cons]

theorem Init_migrateCount (env : Env) (w : World) (s : sqliteDb) (o : Options) :
    migrateCount (Init env w s o).trace = 0 := by
  cases h : s.initialized
  · rcases hg : env.gormOpen w o.DataSource with ⟨db, _ | e⟩
    · rw [Init_opened env w s o h db hg, connect_migrateCount]; rfl
    · cases hn : e.notExist
      · rw [Init_open_fatal env w s o h db e hg hn]; rfl
      · cases hc : env.osCreate w (env.filepathJoin "data" o.DataSource) with
        | some ce => rw [Init_create_fatal env w s o h db e ce hg hn hc]; rfl
        | none => rw [Init_recovered env w s o h db e hg hn hc, connect_migrateCount]; rfl
  · rw [Init_again env w s o h]; rfl

theorem occursIn_init (m : String) :
    occursIn "init" ("init sqliteDb database error: " ++ m) := by
  unfold occursIn
  have h : ("init sqliteDb database error: " ++ m).data =
      "init".data ++ (" sqliteDb database error: ".data ++ m.data) := by
    rw [String.data_append]; rfl
  rw [h]
  exact (List.prefix_append _ _).isInfix

theorem occursIn_reason (pre m : String) : occursIn m (pre ++ m) := by
  unfold occursIn
  rw [String.data_append]
  exact (List.suffix_append _ _).isInfix

theorem occursIn_trans {a b c : String} (h₁ : occursIn a b) (h₂ : occursIn b c) :
    occursIn a c := List.IsInfix.trans h₁ h₂

/-- C4: each of `NewSqliteDb`, `NewSQLiteV2` and `NewWithLogger` runs `Init` and then
`Migrate` and hands back the first failure.  If `Init` fails with `e`, the factory
returns no instance and the error "init sqliteDb database error: " followed by the
text of `e`, and `Migrate` is not called.  If `Init` succeeds and `Migrate` fails with
`e`, it returns no instance and "migrate sqliteDb database error: " followed by the
text of `e`.  So when the engine refuses the open for a reason other than absence,
such as "permission denied", the returned text contains "init" and the reason. -/
theorem factories_wrap_first_failure (env : Env) (w : World) (config : Config)
    (logger : Option LoggerRef) (models : List Model) :
    (∀ e, (Init env w sqliteDb.zero (env.convertConfigToOptions config)).out
          = .returned (some e) →
      ((NewSqliteDb env w config models).result
          = .error (Errorf "init sqliteDb database error: " e) ∧
        migrateCount (NewSqliteDb env w config models).trace = 0) ∧
      ((NewSQLiteV2 env w config models).result
          = .error (Errorf "init sqliteDb database error: " e) ∧
        migrateCount (NewSQLiteV2 env w config models).trace = 0)) ∧
    (∀ e, (Init env w sqliteDb.zero
            { env.convertConfigToOptions config with Logger := logger }).out
          = .returned (some e) →
      (NewWithLogger env w config logger models).result
          = .error (Errorf "init sqliteDb database error: " e) ∧
        migrateCount (NewWithLogger env w config logger models).trace = 0) ∧
    (∀ e, (Init env w sqliteDb.zero (env.convertConfigToOptions config)).out
          = .returned none →
      env.migrate (Init env w sqliteDb.zero (env.convertConfigToOptions config)).inst models
          = some e →
      (NewSqliteDb env w config models).result
          = .error (Errorf "migrate sqliteDb database error: " e) ∧
      (NewSQLiteV2 env w config models).result
          = .error (Errorf "migrate sqliteDb database error: " e)) ∧
    (∀ e, (Init env w sqliteDb.zero
            { env.convertConfigToOptions config with Logger := logger }).out
          = .returned none →
      env.migrate (Init env w sqliteDb.zero
            { env.convertConfigToOptions config with Logger := logger }).inst models
          = some e →
      (NewWithLogger env w config logger models).result
          = .error (Errorf "migrate sqliteDb database error: " e)) ∧
    (∀ db e, env.gormOpen w (env.convertConfigToOptions config).DataSource = (db, some e) →
      e.notExist = false →
      ∃ err, (NewSqliteDb env w config models).result = .error err ∧
        (NewSQLiteV2 env w config models).result = .error err ∧
        (NewWithLogger env w config logger models).result = .error err ∧
        err.msg = "init sqliteDb database error: open sqliteDb database error: " ++ e.msg ∧
        occursIn "init" err.msg ∧ occursIn e.msg err.msg) := by
  refine ⟨?_, ?_, ?_, ?_, ?_⟩
  · intro e h
    simp [NewSqliteDb, NewSQLiteV2, h, Init_migrateCount]
  · intro e h
    simp [NewWithLogger, h, Init_migrateCount]
  · intro e h hm
    simp [NewSqliteDb, NewSQLiteV2, h, hm]
  · intro e h hm
    simp [NewWithLogger, h, hm]
  · intro db e hg hn
    have hz : sqliteDb.zero.initialized = false := rfl
    have h1 := Init_open_fatal env w sqliteDb.zero (env.convertConfigToOptions config)
      hz db e hg hn
    have h2 := Init_open_fatal env w sqliteDb.zero
      { env.convertConfigToOptions config with Logger := logger } hz db e hg hn
    refine ⟨Errorf "init sqliteDb database error: "
      (Errorf "open sqliteDb database error: " e), ?_, ?_, ?_, ?_, ?_, ?_⟩
    · simp [NewSqliteDb, h1]
    · simp [NewSQLiteV2, h1]
    · simp [NewWithLogger, h2]
    · show _ ++ (_ ++ e.msg) = _
      rw [← String.append_assoc]; rfl
    · exact occursIn_init _
    · exact occursIn_trans (occursIn_reason "open sqliteDb database error: " e.msg)
        (occursIn_reason "init sqliteDb database error: " _)

/-- Witness of C4: with an engine that answers "permission denied", the three
factories return the text
"init sqliteDb database error: open sqliteDb database error: permission denied". -/
theorem factories_wrap_first_failure_witness :
    ∃ err, (NewSqliteDb envDenied ⟨[]⟩ (configFor "app.db") ["user"]).result = .error err ∧
      (NewSQLiteV2 envDenied ⟨[]⟩ (configFor "app.db") ["user"]).result = .error err ∧
      (NewWithLogger envDenied ⟨[]⟩ (configFor "app.db") (some 3) ["user"]).result
        = .error err ∧
      err.msg = "init sqliteDb database error: open sqliteDb database error: "
        ++ "permission denied" ∧
      occursIn "init" err.msg ∧ occursIn "permission denied" err.msg :=
  (factories_wrap_first_failure envDenied ⟨[]⟩ (configFor "app.db") (some 3) ["user"]).2.2.2.2
    none ⟨"permission denied", false⟩ rfl rfl

theorem connect_createCount (env : Env) (w : World) (s : sqliteDb) (o : Options)
    (lg : LoggerRef) (db : Option GormDB) (t : List Event) :
    createCount (Init.connect env w s o lg db t).trace = createCount t := by
  unfold Init.connect
  cases db with
  | none => rfl
  | some h =>
    simp only
    cases env.dbDB h <;>
      simp [createCount, Event.isCreate, List.countP_append, List.countP_cons]

theorem connect_world (env : Env) (w : World) (s : sqliteDb) (o : Options)
    (lg : LoggerRef) (db : Option GormDB) (t : List Event) :
    (Init.connect env w s o lg db t).world = w := by
  unfold Init.connect
  cases db with
  | none => rfl
  | some h =>
    simp only
    cases env.dbDB h <;> rfl

theorem connect_trace_extends (env : Env) (w : World) (s : sqliteDb) (o : Options)
    (lg : LoggerRef) (db : Option GormDB) (t : List Event) :
    t <+: (Init.connect env w s o lg db t).trace := by
  unfold Init.connect
  cases db with
  | none => exact List.prefix_refl t
  | some h =>
    simp only
    cases env.dbDB h
    · exact List.prefix_append _ _
    · simp only [List.append_assoc]
      exact List.prefix_append _ _

/-- Counterexample to C5: the engine looks for "app.db" on a disk that does not hold
it and reports absence (handing back a handle); the creation succeeds and the pool
handle is obtained, so `Init` returns nil.  The file it created is "data/app.db", and
a second open of the same locator "app.db" reports absence again. -/
theorem recovery_creates_elsewhere :
    envFiles.gormOpen ⟨[]⟩ "app.db" = (some 1, some ⟨"no such file or directory", true⟩) ∧
    envFiles.osCreate ⟨[]⟩ (envFiles.filepathJoin "data" "app.db") = none ∧
    envFiles.dbDB 1 = .ok 101 ∧
    (Init envFiles ⟨[]⟩ sqliteDb.zero (optionsFor "app.db")).out = .returned none ∧
    (Init envFiles ⟨[]⟩ sqliteDb.zero (optionsFor "app.db")).world.files = ["data/app.db"] ∧
    envFiles.gormOpen (Init envFiles ⟨[]⟩ sqliteDb.zero (optionsFor "app.db")).world "app.db"
      = (some 1, some ⟨"no such file or directory", true⟩) :=
  ⟨by decide, by decide, rfl, by decide, by decide, by decide⟩

/-- C5 (amended): when the engine open reports the data source as not existing and
hands back a handle, the creation of the file succeeds, and the native pool handle
can be obtained from that handle, a first `Init` opens the engine exactly once (no
second open), creates exactly one file, at `filepath.Join("data", dataSource)`, which
is the one path added to the disk, stores the handle and returns nil.  No file is
created at any other path, so where the joined path differs from the locator, as
"data/app.db" differs from "app.db", nothing is promised about a later open of the
same locator. -/
theorem absence_recovery (env : Env) (w : World) (s : sqliteDb) (o : Options)
    (h : GormDB) (e : GoError) (sqlDb : SqlDB)
    (hs : s.initialized = false)
    (ho : env.gormOpen w o.DataSource = (some h, some e)) (hn : e.notExist = true)
    (hc : env.osCreate w (env.filepathJoin "data" o.DataSource) = none)
    (hp : env.dbDB h = .ok sqlDb) :
    (Init env w s o).out = .returned none ∧
    openCount (Init env w s o).trace = 1 ∧
    createCount (Init env w s o).trace = 1 ∧
    Event.osCreate (env.filepathJoin "data" o.DataSource) ∈ (Init env w s o).trace ∧
    (Init env w s o).world.files = env.filepathJoin "data" o.DataSource :: w.files ∧
    (Init env w s o).inst.BaseDatabaseImplement.Db = some h ∧
    (Init env w s o).inst.BaseDatabaseImplementV2.Db = some h := by
  refine ⟨?_, Init_openCount env w s o hs, ?_, ?_, ?_, ?_, ?_⟩ <;>
    rw [Init_recovered env w s o hs (some h) e ho hn hc, connect_ok _ _ _ _ _ _ _ _ hp]
  · simp [createCount, opening, Event.isCreate, List.countP_append, List.countP_cons]
  · simp

/-- Witness of C5 (amended): the engine that looks on disk, an empty disk, "app.db". -/
theorem absence_recovery_witness :
    (Init envFiles ⟨[]⟩ sqliteDb.zero (optionsFor "app.db")).out = .returned none ∧
    openCount (Init envFiles ⟨[]⟩ sqliteDb.zero (optionsFor "app.db")).trace = 1 ∧
    createCount (Init envFiles ⟨[]⟩ sqliteDb.zero (optionsFor "app.db")).trace = 1 ∧
    Event.osCreate (envFiles.filepathJoin "data" (optionsFor "app.db").DataSource) ∈
      (Init envFiles ⟨[]⟩ sqliteDb.zero (optionsFor "app.db")).trace ∧
    (Init envFiles ⟨[]⟩ sqliteDb.zero (optionsFor "app.db")).world.files =
      envFiles.filepathJoin "data" (optionsFor "app.db").DataSource :: [] ∧
    (Init envFiles ⟨[]⟩ sqliteDb.zero
      (optionsFor "app.db")).inst.BaseDatabaseImplement.Db = some 1 ∧
    (Init envFiles ⟨[]⟩ sqliteDb.zero
      (optionsFor "app.db")).inst.BaseDatabaseImplementV2.Db = some 1 :=
  absence_recovery envFiles ⟨[]⟩ sqliteDb.zero (optionsFor "app.db") 1
    ⟨"no such file or directory", true⟩ 101 rfl (by decide) rfl rfl rfl

theorem connect_registeredNames_nil (env : Env) (w : World) (s : sqliteDb) (o : Options)
    (lg : LoggerRef) (t : List Event) (h : GormDB) (sqlDb : SqlDB)
    (hd : env.dbDB h = .ok sqlDb) (ht : registeredNames t = []) (hr : registerCount t = 0) :
    registeredNames (Init.connect env w s o lg (some h) t).trace = ["CLOSE_SQLITE_DB_CONN"] ∧
    registerCount (Init.connect env w s o lg (some h) t).trace = 1 := by
  rw [connect_ok _ _ _ _ _ _ _ _ hd]
  constructor
  · simp only [List.append_assoc]
    have : ∀ (a b : List Event), registeredNames (a ++ b) = registeredNames a ++ registeredNames b := by
      intro a b
      induction a with
      | nil => rfl
      | cons x xs ih => cases x <;> simp [registeredNames, ih]
    rw [this, ht]; rfl
  · simp only [registerCount, List.countP_append] at hr ⊢
    rw [hr]; rfl

/-- C6: when the engine open fails with an error that is not a "does not exist"
condition, a first `Init` returns "open sqliteDb database error: " followed by the
reason; it creates no file, opens the engine once only, leaves the handle of both
bases and the disk as they were, and registers no shutdown callback.  When the error
is "does not exist" and the file creation fails, it returns
"create sqliteDb database error: " followed by the creation error, again with one
open, no handle set and no callback registered. -/
theorem open_failure_is_fatal (env : Env) (w : World) (s : sqliteDb) (o : Options)
    (db : Option GormDB) (e : GoError) (hs : s.initialized = false)
    (ho : env.gormOpen w o.DataSource = (db, some e)) :
    (e.notExist = false →
      (Init env w s o).out =
        .returned (some ⟨"open sqliteDb database error: " ++ e.msg, false⟩) ∧
      createCount (Init env w s o).trace = 0 ∧
      openCount (Init env w s o).trace = 1 ∧
      registerCount (Init env w s o).trace = 0 ∧
      (Init env w s o).inst.BaseDatabaseImplement.Db = s.BaseDatabaseImplement.Db ∧
      (Init env w s o).inst.BaseDatabaseImplementV2.Db = s.BaseDatabaseImplementV2.Db ∧
      (Init env w s o).world = w) ∧
    (∀ ce, e.notExist = true →
      env.osCreate w (env.filepathJoin "data" o.DataSource) = some ce →
      (Init env w s o).out =
        .returned (some ⟨"create sqliteDb database error: " ++ ce.msg, false⟩) ∧
      openCount (Init env w s o).trace = 1 ∧
      registerCount (Init env w s o).trace = 0 ∧
      (Init env w s o).inst.BaseDatabaseImplement.Db = s.BaseDatabaseImplement.Db ∧
      (Init env w s o).inst.BaseDatabaseImplementV2.Db = s.BaseDatabaseImplementV2.Db ∧
      (Init env w s o).world = w) := by
  constructor
  · intro hn
    rw [Init_open_fatal env w s o hs db e ho hn]
    exact ⟨rfl, rfl, rfl, rfl, rfl, rfl, rfl⟩
  · intro ce hn hc
    rw [Init_create_fatal env w s o hs db e ce ho hn hc]
    exact ⟨rfl, rfl, rfl, rfl, rfl, rfl⟩

/-- Witness of C6: the engine that answers "permission denied", and the engine that
reports absence on a read-only disk. -/
theorem open_failure_is_fatal_witness :
    ((Init envDenied ⟨[]⟩ sqliteDb.zero (optionsFor "app.db")).out =
        .returned (some ⟨"open sqliteDb database error: " ++ "permission denied", false⟩) ∧
      createCount (Init envDenied ⟨[]⟩ sqliteDb.zero (optionsFor "app.db")).trace = 0 ∧
      openCount (Init envDenied ⟨[]⟩ sqliteDb.zero (optionsFor "app.db")).trace = 1 ∧
      registerCount (Init envDenied ⟨[]⟩ sqliteDb.zero (optionsFor "app.db")).trace = 0 ∧
      (Init envDenied ⟨[]⟩ sqliteDb.zero (optionsFor "app.db")).inst.BaseDatabaseImplement.Db
        = none ∧
      (Init envDenied ⟨[]⟩ sqliteDb.zero (optionsFor "app.db")).inst.BaseDatabaseImplementV2.Db
        = none ∧
      (Init envDenied ⟨[]⟩ sqliteDb.zero (optionsFor "app.db")).world = ⟨[]⟩) ∧
    ((Init envReadOnly ⟨[]⟩ sqliteDb.zero (optionsFor "app.db")).out =
        .returned (some ⟨"create sqliteDb database error: " ++ "read-only file system",
          false⟩) ∧
      openCount (Init envReadOnly ⟨[]⟩ sqliteDb.zero (optionsFor "app.db")).trace = 1 ∧
      registerCount (Init envReadOnly ⟨[]⟩ sqliteDb.zero (optionsFor "app.db")).trace = 0 ∧
      (Init envReadOnly ⟨[]⟩ sqliteDb.zero (optionsFor "app.db")).inst.BaseDatabaseImplement.Db
        = none ∧
      (Init envReadOnly ⟨[]⟩ sqliteDb.zero
        (optionsFor "app.db")).inst.BaseDatabaseImplementV2.Db = none ∧
      (Init envReadOnly ⟨[]⟩ sqliteDb.zero (optionsFor "app.db")).world = ⟨[]⟩) :=
  ⟨(open_failure_is_fatal envDenied ⟨[]⟩ sqliteDb.zero (optionsFor "app.db") none
      ⟨"permission denied", false⟩ rfl rfl).1 rfl,
   (open_failure_is_fatal envReadOnly ⟨[]⟩ sqliteDb.zero (optionsFor "app.db") none
      ⟨"no such file or directory", true⟩ rfl rfl).2 ⟨"read-only file system", false⟩ rfl rfl⟩

theorem connect_handles (env : Env) (w : World) (s : sqliteDb) (o : Options)
    (lg : LoggerRef) (db : Option GormDB) (t : List Event)
    (hr : (Init.connect env w s o lg db t).out = .returned none) :
    ∃ h, db = some h ∧
      (Init.connect env w s o lg db t).inst.BaseDatabaseImplement.Db = some h ∧
      (Init.connect env w s o lg db t).inst.BaseDatabaseImplementV2.Db = some h := by
  cases db with
  | none => simp [connect_nil] at hr
  | some h =>
    cases hp : env.dbDB h with
    | error dbe => simp [connect_pool_fatal _ _ _ _ _ _ _ _ hp] at hr
    | ok sqlDb => exact ⟨h, rfl, by simp [connect_ok _ _ _ _ _ _ _ _ hp]⟩

theorem Init_handles (env : Env) (w : World) (s : sqliteDb) (o : Options)
    (hs : s.initialized = false) (hr : (Init env w s o).out = .returned none) :
    ∃ h, (env.gormOpen w o.DataSource).1 = some h ∧
      (Init env w s o).inst.BaseDatabaseImplement.Db = some h ∧
      (Init env w s o).inst.BaseDatabaseImplementV2.Db = some h := by
  rcases hg : env.gormOpen w o.DataSource with ⟨db, _ | e⟩
  · rw [Init_opened env w s o hs db hg] at hr ⊢
    obtain ⟨h, hdb, h1, h2⟩ := connect_handles _ _ _ _ _ _ _ hr
    exact ⟨h, hdb, h1, h2⟩
  · cases hn : e.notExist
    · rw [Init_open_fatal env w s o hs db e hg hn] at hr; simp at hr
    · cases hc : env.osCreate w (env.filepathJoin "data" o.DataSource) with
      | some ce => rw [Init_create_fatal env w s o hs db e ce hg hn hc] at hr; simp at hr
      | none =>
        rw [Init_recovered env w s o hs db e hg hn hc] at hr ⊢
        obtain ⟨h, hdb, h1, h2⟩ := connect_handles _ _ _ _ _ _ _ hr
        exact ⟨h, hdb, h1, h2⟩

theorem NewSqliteDb_ok (env : Env) (w : World) (config : Config) (models : List Model)
    (db : sqliteDb) (hr : (NewSqliteDb env w config models).result = .ok db) :
    (Init env w sqliteDb.zero (env.convertConfigToOptions config)).out = .returned none ∧
    db = (Init env w sqliteDb.zero (env.convertConfigToOptions config)).inst := by
  unfold NewSqliteDb at hr
  simp only at hr
  split at hr
  · simp at hr
  · simp at hr
  · rename_i hout
    split at hr
    · simp at hr
    · simp only [FactoryResult.ok.injEq] at hr
      exact ⟨hout, hr.symm⟩

/-- C7: after a successful first `Init` the handle of the legacy base and the handle
of the current-revision base are one and the same handle, the one the single engine
open returned; an `Init` on an instance whose two handles agree leaves them agreeing,
whatever its outcome; and the instance a successful `NewSqliteDb` returns holds, in
both bases, the handle of its one engine open. -/
theorem dual_revision_consistency (env : Env) (w : World) (s : sqliteDb) (o : Options)
    (config : Config) (models : List Model) :
    (s.initialized = false → (Init env w s o).out = .returned none →
      ∃ h, (env.gormOpen w o.DataSource).1 = some h ∧
        (Init env w s o).inst.BaseDatabaseImplement.Db = some h ∧
        (Init env w s o).inst.BaseDatabaseImplementV2.Db = some h ∧
        openCount (Init env w s o).trace = 1) ∧
    (s.BaseDatabaseImplement.Db = s.BaseDatabaseImplementV2.Db →
      (Init env w s o).inst.BaseDatabaseImplement.Db =
        (Init env w s o).inst.BaseDatabaseImplementV2.Db) ∧
    (∀ db, (NewSqliteDb env w config models).result = .ok db →
      ∃ h, (env.gormOpen w (env.convertConfigToOptions config).DataSource).1 = some h ∧
        db.BaseDatabaseImplement.Db = some h ∧ db.BaseDatabaseImplementV2.Db = some h ∧
        openCount (NewSqliteDb env w config models).trace = 1) := by
  refine ⟨?_, ?_, ?_⟩
  · intro hs hr
    obtain ⟨h, h0, h1, h2⟩ := Init_handles env w s o hs hr
    exact ⟨h, h0, h1, h2, Init_openCount env w s o hs⟩
  · intro hab
    have key : ∀ (w' : World) (db : Option GormDB) (t : List Event),
        (Init.connect env w' (started env s o) (withLogger env o)
            (boundLogger env o) db t).inst.BaseDatabaseImplement.Db =
        (Init.connect env w' (started env s o) (withLogger env o)
            (boundLogger env o) db t).inst.BaseDatabaseImplementV2.Db := by
      intro w' db t
      cases db with
      | none => simpa [connect_nil, started] using hab
      | some hd =>
        cases hp : env.dbDB hd with
        | error dbe => simpa [connect_pool_fatal _ _ _ _ _ _ _ _ hp, started] using hab
        | ok sqlDb => simp [connect_ok _ _ _ _ _ _ _ _ hp]
    cases hs : s.initialized
    · rcases hg : env.gormOpen w o.DataSource with ⟨db, _ | e⟩
      · rw [Init_opened env w s o hs db hg]; exact key _ _ _
      · cases hn : e.notExist
        · rw [Init_open_fatal env w s o hs db e hg hn]; simpa [started] using hab
        · cases hc : env.osCreate w (env.filepathJoin "data" o.DataSource) with
          | some ce =>
            rw [Init_create_fatal env w s o hs db e ce hg hn hc]; simpa [started] using hab
          | none => rw [Init_recovered env w s o hs db e hg hn hc]; exact key _ _ _
    · rw [Init_again env w s o hs]; exact hab
  · intro db hr
    obtain ⟨hout, hdb⟩ := NewSqliteDb_ok env w config models db hr
    obtain ⟨h, h0, h1, h2⟩ := Init_handles env w sqliteDb.zero _ rfl hout
    refine ⟨h, h0, hdb ▸ h1, hdb ▸ h2, ?_⟩
    have ht : (NewSqliteDb env w config models).trace =
        (Init env w sqliteDb.zero (env.convertConfigToOptions config)).trace ++
          [.migrate models] := by
      unfold NewSqliteDb
      simp only [hout]
      split <;> rfl
    rw [ht]
    simp only [openCount, List.countP_append]
    have := Init_openCount env w sqliteDb.zero (env.convertConfigToOptions config) rfl
    simp only [openCount] at this
    rw [this]; rfl

/-- Witness of C7: the engine that opens "app.db" with handle 6. -/
theorem dual_revision_consistency_witness :
    (∃ h, (envOk.gormOpen ⟨[]⟩ (optionsFor "app.db").DataSource).1 = some h ∧
        (Init envOk ⟨[]⟩ sqliteDb.zero (optionsFor "app.db")).inst.BaseDatabaseImplement.Db
          = some h ∧
        (Init envOk ⟨[]⟩ sqliteDb.zero (optionsFor "app.db")).inst.BaseDatabaseImplementV2.Db
          = some h ∧
        openCount (Init envOk ⟨[]⟩ sqliteDb.zero (optionsFor "app.db")).trace = 1) ∧
    (Init envOk ⟨[]⟩ sqliteDb.zero (optionsFor "app.db")).inst.BaseDatabaseImplement.Db =
        (Init envOk ⟨[]⟩ sqliteDb.zero (optionsFor "app.db")).inst.BaseDatabaseImplementV2.Db ∧
    (∃ h, (envOk.gormOpen ⟨[]⟩ (envOk.convertConfigToOptions (configFor "app.db")).DataSource).1
          = some h ∧
        (Init envOk ⟨[]⟩ sqliteDb.zero
          (optionsFor "app.db")).inst.BaseDatabaseImplement.Db = some h ∧
        (Init envOk ⟨[]⟩ sqliteDb.zero
          (optionsFor "app.db")).inst.BaseDatabaseImplementV2.Db = some h ∧
        openCount (NewSqliteDb envOk ⟨[]⟩ (configFor "app.db") ["user"]).trace = 1) :=
  ⟨(dual_revision_consistency envOk ⟨[]⟩ sqliteDb.zero (optionsFor "app.db")
      (configFor "app.db") ["user"]).1 rfl (by decide),
   (dual_revision_consistency envOk ⟨[]⟩ sqliteDb.zero (optionsFor "app.db")
      (configFor "app.db") ["user"]).2.1 rfl,
   (dual_revision_consistency envOk ⟨[]⟩ sqliteDb.zero (optionsFor "app.db")
      (configFor "app.db") ["user"]).2.2
      (Init envOk ⟨[]⟩ sqliteDb.zero (optionsFor "app.db")).inst (by decide)⟩

theorem connect_error_is_pool (env : Env) (w : World) (s : sqliteDb) (o : Options)
    (lg : LoggerRef) (db : Option GormDB) (t : List Event) (err : GoError)
    (hr : (Init.connect env w s o lg db t).out = .returned (some err)) :
    ∃ h dbe, db = some h ∧ env.dbDB h = .error dbe ∧
      err = Errorf "get sqliteDb database error: " dbe := by
  cases db with
  | none => simp [connect_nil] at hr
  | some h =>
    cases hp : env.dbDB h with
    | error dbe =>
      simp only [connect_pool_fatal _ _ _ _ _ _ _ _ hp, Outcome.returned.injEq,
        Option.some.injEq] at hr
      exact ⟨h, dbe, rfl, hp, hr.symm⟩
    | ok sqlDb => simp [connect_ok _ _ _ _ _ _ _ _ hp] at hr

/-- Counterexample to C8: an empty data source with pool bounds 5 and 2 is not
rejected.  `Init` opens the engine on the empty data source and returns nil, and
`NewSqliteDb` returns an instance. -/
theorem invalid_config_reaches_engine :
    (Init envOk ⟨[]⟩ sqliteDb.zero
      { DataSource := "", Logger := none, PoolMin := some 5, PoolMax := some 2
        ConnMaxIdle := none, ConnMaxLifetime := none }).out = .returned none ∧
    Event.gormOpen "" ∈ (Init envOk ⟨[]⟩ sqliteDb.zero
      { DataSource := "", Logger := none, PoolMin := some 5, PoolMax := some 2
        ConnMaxIdle := none, ConnMaxLifetime := none }).trace ∧
    (NewSqliteDb envOk ⟨[]⟩
      { DataSource := "", PoolMin := some 5, PoolMax := some 2
        ConnMaxIdle := none, ConnMaxLifetime := none } []).result =
      .ok (Init envOk ⟨[]⟩ sqliteDb.zero
        { DataSource := "", Logger := none, PoolMin := some 5, PoolMax := some 2
          ConnMaxIdle := none, ConnMaxLifetime := none }).inst := by
  decide

/-- C8 (amended): no validation of the configuration precedes the engine.  For every
options value, with an empty data source or inconsistent pool bounds as with any
other, a first `Init` starts by logging and opening the engine on the data source as
given, and `NewSqliteDb` does so on the converted configuration; the only errors
`Init` returns are the wrapped open, create and pool-handle errors, so none of them
is an `InvalidConfig` rejection. -/
theorem no_validation_before_open (env : Env) (w : World) (s : sqliteDb) (o : Options)
    (config : Config) (models : List Model) (hs : s.initialized = false) :
    opening env o <+: (Init env w s o).trace ∧
    Event.gormOpen o.DataSource ∈ (Init env w s o).trace ∧
    Event.gormOpen (env.convertConfigToOptions config).DataSource ∈
      (NewSqliteDb env w config models).trace ∧
    (∀ err, (Init env w s o).out = .returned (some err) →
      (∃ e, (env.gormOpen w o.DataSource).2 = some e ∧
        err = Errorf "open sqliteDb database error: " e) ∨
      (∃ ce, env.osCreate w (env.filepathJoin "data" o.DataSource) = some ce ∧
        err = Errorf "create sqliteDb database error: " ce) ∨
      (∃ h dbe, env.dbDB h = .error dbe ∧
        err = Errorf "get sqliteDb database error: " dbe)) := by
  have hpre : ∀ (s : sqliteDb) (o : Options), s.initialized = false →
      opening env o <+: (Init env w s o).trace := by
    intro s o hs
    rcases hg : env.gormOpen w o.DataSource with ⟨db, _ | e⟩
    · rw [Init_opened env w s o hs db hg]; exact connect_trace_extends _ _ _ _ _ _ _
    · cases hn : e.notExist
      · rw [Init_open_fatal env w s o hs db e hg hn]; exact List.prefix_append _ _
      · cases hc : env.osCreate w (env.filepathJoin "data" o.DataSource) with
        | some ce =>
          rw [Init_create_fatal env w s o hs db e ce hg hn hc]; exact List.prefix_append _ _
        | none =>
          rw [Init_recovered env w s o hs db e hg hn hc]
          exact (List.prefix_append _ _).trans (connect_trace_extends _ _ _ _ _ _ _)
  have hmem : ∀ (o : Options), Event.gormOpen o.DataSource ∈ opening env o := by
    intro o; simp [opening]
  refine ⟨hpre s o hs, (hpre s o hs).subset (hmem o), ?_, ?_⟩
  · have h1 := (hpre sqliteDb.zero (env.convertConfigToOptions config) rfl).subset (hmem _)
    unfold NewSqliteDb
    simp only
    split
    · exact h1
    · exact h1
    · split <;> exact List.mem_append_left _ h1
  · intro err hr
    rcases hg : env.gormOpen w o.DataSource with ⟨db, _ | e⟩
    · rw [Init_opened env w s o hs db hg] at hr
      obtain ⟨h, dbe, _, hp, he⟩ := connect_error_is_pool _ _ _ _ _ _ _ _ hr
      exact Or.inr (Or.inr ⟨h, dbe, hp, he⟩)
    · cases hn : e.notExist
      · rw [Init_open_fatal env w s o hs db e hg hn] at hr
        simp only [Outcome.returned.injEq, Option.some.injEq] at hr
        exact Or.inl ⟨e, rfl, hr.symm⟩
      · cases hc : env.osCreate w (env.filepathJoin "data" o.DataSource) with
        | some ce =>
          rw [Init_create_fatal env w s o hs db e ce hg hn hc] at hr
          simp only [Outcome.returned.injEq, Option.some.injEq] at hr
          exact Or.inr (Or.inl ⟨ce, rfl, hr.symm⟩)
        | none =>
          rw [Init_recovered env w s o hs db e hg hn hc] at hr
          obtain ⟨h, dbe, _, hp, he⟩ := connect_error_is_pool _ _ _ _ _ _ _ _ hr
          exact Or.inr (Or.inr ⟨h, dbe, hp, he⟩)

/-- Witness of C8 (amended): the empty data source with pool bounds 5 and 2 reaches
the engine; and the error of the engine that answers "permission denied" is the
wrapped open error. -/
theorem no_validation_before_open_witness :
    Event.gormOpen "" ∈ (Init envOk ⟨[]⟩ sqliteDb.zero
      { DataSource := "", Logger := none, PoolMin := some 5, PoolMax := some 2
        ConnMaxIdle := none, ConnMaxLifetime := none }).trace ∧
    ((∃ e, (envDenied.gormOpen ⟨[]⟩ (optionsFor "").DataSource).2 = some e ∧
        (⟨"open sqliteDb database error: permission denied", false⟩ : GoError) =
          Errorf "open sqliteDb database error: " e) ∨
      (∃ ce, envDenied.osCreate ⟨[]⟩ (envDenied.filepathJoin "data" (optionsFor "").DataSource)
          = some ce ∧
        (⟨"open sqliteDb database error: permission denied", false⟩ : GoError) =
          Errorf "create sqliteDb database error: " ce) ∨
      (∃ h dbe, envDenied.dbDB h = .error dbe ∧
        (⟨"open sqliteDb database error: permission denied", false⟩ : GoError) =
          Errorf "get sqliteDb database error: " dbe)) :=
  ⟨(no_validation_before_open envOk ⟨[]⟩ sqliteDb.zero
      { DataSource := "", Logger := none, PoolMin := some 5, PoolMax := some 2
        ConnMaxIdle := none, ConnMaxLifetime := none }
      { DataSource := "", PoolMin := some 5, PoolMax := some 2
        ConnMaxIdle := none, ConnMaxLifetime := none } [] rfl).2.1,
   (no_validation_before_open envDenied ⟨[]⟩ sqliteDb.zero (optionsFor "")
      (configFor "") [] rfl).2.2.2
      ⟨"open sqliteDb database error: permission denied", false⟩ (by decide)⟩

/-- Counterexample to C9: two instances initialised with success on the data sources
"a.db" and "bb.db", holding different handles, register their shutdown callbacks
under one and the same name. -/
theorem exit_names_collide :
    (Init envOk ⟨[]⟩ sqliteDb.zero (optionsFor "a.db")).out = .returned none ∧
    (Init envOk ⟨[]⟩ sqliteDb.zero (optionsFor "bb.db")).out = .returned none ∧
    (Init envOk ⟨[]⟩ sqliteDb.zero (optionsFor "a.db")).inst ≠
      (Init envOk ⟨[]⟩ sqliteDb.zero (optionsFor "bb.db")).inst ∧
    registeredNames (Init envOk ⟨[]⟩ sqliteDb.zero (optionsFor "a.db")).trace =
      registeredNames (Init envOk ⟨[]⟩ sqliteDb.zero (optionsFor "bb.db")).trace := by
  decide

/-- C9 (amended): every successful first `Init` registers exactly one shutdown
callback, and it registers it under the fixed name "CLOSE_SQLITE_DB_CONN", whatever
the instance, the data source and the handle. -/
theorem one_exit_event_fixed_name (env : Env) (w : World) (s : sqliteDb) (o : Options)
    (hs : s.initialized = false) (hr : (Init env w s o).out = .returned none) :
    registerCount (Init env w s o).trace = 1 ∧
    registeredNames (Init env w s o).trace = ["CLOSE_SQLITE_DB_CONN"] := by
  have key : ∀ (w' : World) (s' : sqliteDb) (db : Option GormDB) (t : List Event),
      registeredNames t = [] → registerCount t = 0 →
      (Init.connect env w' s' (withLogger env o) (boundLogger env o) db t).out
        = .returned none →
      registerCount (Init.connect env w' s' (withLogger env o)
        (boundLogger env o) db t).trace = 1 ∧
      registeredNames (Init.connect env w' s' (withLogger env o)
        (boundLogger env o) db t).trace = ["CLOSE_SQLITE_DB_CONN"] := by
    intro w' s' db t ht hc hout
    cases db with
    | none => simp [connect_nil] at hout
    | some h =>
      cases hp : env.dbDB h with
      | error dbe => simp [connect_pool_fatal _ _ _ _ _ _ _ _ hp] at hout
      | ok sqlDb =>
        exact (connect_registeredNames_nil env w' s' _ _ t h sqlDb hp ht hc).symm
  rcases hg : env.gormOpen w o.DataSource with ⟨db, _ | e⟩
  · rw [Init_opened env w s o hs db hg] at hr ⊢
    exact key _ _ _ _ rfl rfl hr
  · cases hn : e.notExist
    · rw [Init_open_fatal env w s o hs db e hg hn] at hr; simp at hr
    · cases hc : env.osCreate w (env.filepathJoin "data" o.DataSource) with
      | some ce => rw [Init_create_fatal env w s o hs db e ce hg hn hc] at hr; simp at hr
      | none =>
        rw [Init_recovered env w s o hs db e hg hn hc] at hr ⊢
        exact key _ _ _ _ rfl rfl hr

/-- Witness of C9 (amended): the instance opened on "a.db". -/
theorem one_exit_event_fixed_name_witness :
    registerCount (Init envOk ⟨[]⟩ sqliteDb.zero (optionsFor "a.db")).trace = 1 ∧
    registeredNames (Init envOk ⟨[]⟩ sqliteDb.zero (optionsFor "a.db")).trace
      = ["CLOSE_SQLITE_DB_CONN"] :=
  one_exit_event_fixed_name envOk ⟨[]⟩ sqliteDb.zero (optionsFor "a.db") rfl (by decide)

theorem connect_returns (env : Env) (w : World) (s : sqliteDb) (o : Options)
    (lg : LoggerRef) (h : GormDB) (t : List Event) :
    ∃ err, (Init.connect env w s o lg (some h) t).out = .returned err := by
  cases hp : env.dbDB h with
  | error dbe => exact ⟨_, by rw [connect_pool_fatal _ _ _ _ _ _ _ _ hp]⟩
  | ok sqlDb => exact ⟨_, by rw [connect_ok _ _ _ _ _ _ _ _ hp]⟩

theorem Init_returns (env : Env) (w : World) (s : sqliteDb) (o : Options)
    (hh : env.handsBackHandle) : ∃ err, (Init env w s o).out = .returned err := by
  cases hs : s.initialized
  · have hsome := hh w o.DataSource
    rcases hg : env.gormOpen w o.DataSource with ⟨db, oe⟩
    rw [hg] at hsome
    obtain ⟨h, rfl⟩ := Option.isSome_iff_exists.mp hsome
    cases oe with
    | none =>
      rw [Init_opened env w s o hs (some h) hg]
      exact connect_returns _ _ _ _ _ _ _
    | some e =>
      cases hn : e.notExist
      · exact ⟨_, by rw [Init_open_fatal env w s o hs (some h) e hg hn]⟩
      · cases hc : env.osCreate w (env.filepathJoin "data" o.DataSource) with
        | some ce => exact ⟨_, by rw [Init_create_fatal env w s o hs (some h) e ce hg hn hc]⟩
        | none =>
          rw [Init_recovered env w s o hs (some h) e hg hn hc]
          exact connect_returns _ _ _ _ _ _ _
  · exact ⟨none, by rw [Init_again env w s o hs]⟩

/-- C10: no panic on an engine-reported failure.  With an engine that, like
`gorm.Open`, hands back its handle together with the error, `Init` returns nil or an
error value for every outcome of the open, of the file creation and of the pool
handle, and never reaches `db.Logger = ...` with a nil `db`; each of the three
factories returns an instance or an error value.  In particular, when the open
reports "does not exist", the file creation succeeds and the handle handed back is of
no use (no pool handle can be obtained from it), `Init` returns the wrapped error of
`db.DB()`. -/
theorem no_panic_on_engine_failure (env : Env) (w : World) (s : sqliteDb) (o : Options)
    (config : Config) (logger : Option LoggerRef) (models : List Model)
    (hh : env.handsBackHandle) :
    (∃ err, (Init env w s o).out = .returned err) ∧
    (Init env w s o).out ≠ .panicked ∧
    (NewSqliteDb env w config models).result ≠ .panicked ∧
    (NewSQLiteV2 env w config models).result ≠ .panicked ∧
    (NewWithLogger env w config logger models).result ≠ .panicked ∧
    (∀ h e dbe, s.initialized = false →
      env.gormOpen w o.DataSource = (some h, some e) → e.notExist = true →
      env.osCreate w (env.filepathJoin "data" o.DataSource) = none →
      env.dbDB h = .error dbe →
      (Init env w s o).out =
        .returned (some ⟨"get sqliteDb database error: " ++ dbe.msg, false⟩)) := by
  refine ⟨Init_returns env w s o hh, ?_, ?_, ?_, ?_, ?_⟩
  · obtain ⟨err, he⟩ := Init_returns env w s o hh
    rw [he]
    exact fun h => Outcome.noConfusion h
  · obtain ⟨err, he⟩ := Init_returns env w sqliteDb.zero (env.convertConfigToOptions config) hh
    unfold NewSqliteDb
    simp only [he]
    cases err with
    | none => simp only; split <;> exact fun h => FactoryResult.noConfusion h
    | some e => exact fun h => FactoryResult.noConfusion h
  · obtain ⟨err, he⟩ := Init_returns env w sqliteDb.zero (env.convertConfigToOptions config) hh
    unfold NewSQLiteV2
    simp only [he]
    cases err with
    | none => simp only; split <;> exact fun h => FactoryResult.noConfusion h
    | some e => exact fun h => FactoryResult.noConfusion h
  · obtain ⟨err, he⟩ := Init_returns env w sqliteDb.zero
      { env.convertConfigToOptions config with Logger := logger } hh
    unfold NewWithLogger
    simp only [he]
    cases err with
    | none => simp only; split <;> exact fun h => FactoryResult.noConfusion h
    | some e => exact fun h => FactoryResult.noConfusion h
  · intro h e dbe hs hg hn hc hp
    rw [Init_recovered env w s o hs (some h) e hg hn hc,
      connect_pool_fatal _ _ _ _ _ _ _ _ hp]
    rfl

/-- Witness of C10: the engine that reports absence and hands back a handle of no
use; the file is created, and `Init` and the three factories return an error. -/
theorem no_panic_on_engine_failure_witness :
    (Init envAbsentUnusable ⟨[]⟩ sqliteDb.zero (optionsFor "app.db")).out =
      .returned (some ⟨"get sqliteDb database error: " ++ "invalid db", false⟩) ∧
    (NewSqliteDb envAbsentUnusable ⟨[]⟩ (configFor "app.db") []).result ≠ .panicked ∧
    (NewSQLiteV2 envAbsentUnusable ⟨[]⟩ (configFor "app.db") []).result ≠ .panicked ∧
    (NewWithLogger envAbsentUnusable ⟨[]⟩ (configFor "app.db") none []).result
      ≠ .panicked :=
  ⟨(no_panic_on_engine_failure envAbsentUnusable ⟨[]⟩ sqliteDb.zero (optionsFor "app.db")
      (configFor "app.db") none [] (fun _ _ => rfl)).2.2.2.2.2 1
      ⟨"no such file or directory", true⟩ ⟨"invalid db", false⟩ rfl rfl rfl rfl rfl,
   (no_panic_on_engine_failure envAbsentUnusable ⟨[]⟩ sqliteDb.zero (optionsFor "app.db")
      (configFor "app.db") none [] (fun _ _ => rfl)).2.2.1,
   (no_panic_on_engine_failure envAbsentUnusable ⟨[]⟩ sqliteDb.zero (optionsFor "app.db")
      (configFor "app.db") none [] (fun _ _ => rfl)).2.2.2.1,
   (no_panic_on_engine_failure envAbsentUnusable ⟨[]⟩ sqliteDb.zero (optionsFor "app.db")
      (configFor "app.db") none [] (fun _ _ => rfl)).2.2.2.2.1⟩

theorem connect_parseCount_pool_fatal (env : Env) (w : World) (s : sqliteDb) (o : Options)
    (lg : LoggerRef) (t : List Event) (h : GormDB) (dbe : GoError)
    (hd : env.dbDB h = .error dbe) :
    parseCount (Init.connect env w s o lg (some h) t).trace = parseCount t ∧
    registerCount (Init.connect env w s o lg (some h) t).trace = registerCount t := by
  rw [connect_pool_fatal _ _ _ _ _ _ _ _ hd]
  simp [parseCount, registerCount, Event.isParse, Event.isRegister, List.countP_append,
    List.countP_cons]

/-- C11: the legacy and the current factory do not drift.  For every configuration and
every list of models, under one and the same engine, filesystem and migration layer,
`NewSqliteDb` and `NewSQLiteV2` run to the same result: the same panic, or the same
error (so the same text), or the same instance (same handles, flag, driver name and
rand command), after the same calls on the collaborators (so the same registered
callback) and with the same disk. -/
theorem factories_do_not_drift (env : Env) (w : World) (config : Config)
    (models : List Model) :
    NewSqliteDb env w config models = NewSQLiteV2 env w config models ∧
    (NewSqliteDb env w config models).result = (NewSQLiteV2 env w config models).result ∧
    (NewSqliteDb env w config models).trace = (NewSQLiteV2 env w config models).trace ∧
    registeredNames (NewSqliteDb env w config models).trace =
      registeredNames (NewSQLiteV2 env w config models).trace := by
  have h : NewSqliteDb env w config models = NewSQLiteV2 env w config models := by
    unfold NewSqliteDb NewSQLiteV2
    rfl
  exact ⟨h, by rw [h], by rw [h], by rw [h]⟩

/-- C12: when the native pool handle cannot be obtained after the engine open (the
open succeeded, or it reported absence and the file was created), a first `Init`
returns "get sqliteDb database error: " followed by the reason; it applies no pool
settings, leaves the handle of both bases as it was and registers no shutdown
callback. -/
theorem pool_unavailable_is_fatal (env : Env) (w : World) (s : sqliteDb) (o : Options)
    (h : GormDB) (oe : Option GoError) (dbe : GoError)
    (hs : s.initialized = false)
    (ho : env.gormOpen w o.DataSource = (some h, oe))
    (hrec : ∀ e, oe = some e →
      e.notExist = true ∧ env.osCreate w (env.filepathJoin "data" o.DataSource) = none)
    (hp : env.dbDB h = .error dbe) :
    (Init env w s o).out =
      .returned (some ⟨"get sqliteDb database error: " ++ dbe.msg, false⟩) ∧
    parseCount (Init env w s o).trace = 0 ∧
    registerCount (Init env w s o).trace = 0 ∧
    (Init env w s o).inst.BaseDatabaseImplement.Db = s.BaseDatabaseImplement.Db ∧
    (Init env w s o).inst.BaseDatabaseImplementV2.Db = s.BaseDatabaseImplementV2.Db ∧
    openCount (Init env w s o).trace = 1 := by
  refine ⟨?_, ?_, ?_, ?_, ?_, Init_openCount env w s o hs⟩
  all_goals
    cases oe with
    | none =>
      rw [Init_opened env w s o hs (some h) ho]
      first
        | exact (connect_parseCount_pool_fatal env w _ _ _ _ h dbe hp).1
        | exact (connect_parseCount_pool_fatal env w _ _ _ _ h dbe hp).2
        | (rw [connect_pool_fatal _ _ _ _ _ _ _ _ hp]; rfl)
    | some e =>
      obtain ⟨hn, hc⟩ := hrec e rfl
      rw [Init_recovered env w s o hs (some h) e ho hn hc]
      first
        | exact (connect_parseCount_pool_fatal env _ _ _ _ _ h dbe hp).1
        | exact (connect_parseCount_pool_fatal env _ _ _ _ _ h dbe hp).2
        | (rw [connect_pool_fatal _ _ _ _ _ _ _ _ hp]; rfl)

/-- Witness of C12: the engine whose handles have no native pool handle. -/
theorem pool_unavailable_is_fatal_witness :
    (Init envNoPool ⟨[]⟩ sqliteDb.zero (optionsFor "app.db")).out =
      .returned (some ⟨"get sqliteDb database error: " ++ "invalid db", false⟩) ∧
    parseCount (Init envNoPool ⟨[]⟩ sqliteDb.zero (optionsFor "app.db")).trace = 0 ∧
    registerCount (Init envNoPool ⟨[]⟩ sqliteDb.zero (optionsFor "app.db")).trace = 0 ∧
    (Init envNoPool ⟨[]⟩ sqliteDb.zero (optionsFor "app.db")).inst.BaseDatabaseImplement.Db
      = none ∧
    (Init envNoPool ⟨[]⟩ sqliteDb.zero (optionsFor "app.db")).inst.BaseDatabaseImplementV2.Db
      = none ∧
    openCount (Init envNoPool ⟨[]⟩ sqliteDb.zero (optionsFor "app.db")).trace = 1 :=
  pool_unavailable_is_fatal envNoPool ⟨[]⟩ sqliteDb.zero (optionsFor "app.db") 6 none
    ⟨"invalid db", false⟩ rfl rfl (fun e he => by cases he) rfl

theorem Init_eq_rest (env : Env) (w : World) (s : sqliteDb) (o : Options)
    (h : s.initialized = false) :
    Init env w s o = Init.rest env w { s with initialized := true } o := by
  simp only [Init, Init.rest, h, Bool.false_eq_true, if_false]

theorem rest_openCount (env : Env) (w : World) (s : sqliteDb) (o : Options) :
    openCount (Init.rest env w s o).trace = 1 := by
  unfold Init.rest
  simp only
  split
  · rw [connect_openCount]; rfl
  · split
    · rfl
    · split
      · rfl
      · rw [connect_openCount]; rfl

theorem rest_initialized (env : Env) (w : World) (s : sqliteDb) (o : Options) :
    (Init.rest env w s o).inst.initialized = s.initialized := by
  unfold Init.rest
  simp only
  split
  · rw [connect_initialized]
  · split
    · rfl
    · split
      · rfl
      · rw [connect_initialized]

theorem connect_registerCount_ok (env : Env) (w : World) (s : sqliteDb) (o : Options)
    (lg : LoggerRef) (db : Option GormDB) (t : List Event) (ht : registerCount t = 0)
    (hr : (Init.connect env w s o lg db t).out = .returned none) :
    registerCount (Init.connect env w s o lg db t).trace = 1 := by
  cases db with
  | none => simp [connect_nil] at hr
  | some h =>
    cases hp : env.dbDB h with
    | error dbe => simp [connect_pool_fatal _ _ _ _ _ _ _ _ hp] at hr
    | ok sqlDb =>
      rw [connect_ok _ _ _ _ _ _ _ _ hp]
      simp only [registerCount, List.countP_append] at ht ⊢
      rw [ht]; rfl

theorem rest_registerCount (env : Env) (w : World) (s : sqliteDb) (o : Options)
    (hr : (Init.rest env w s o).out = .returned none) :
    registerCount (Init.rest env w s o).trace = 1 := by
  unfold Init.rest at hr ⊢
  simp only at hr ⊢
  split
  · rename_i db heq
    simp only [heq] at hr
    exact connect_registerCount_ok _ _ _ _ _ _ _ (by rfl) hr
  · rename_i db openErr heq
    simp only [heq] at hr
    split
    · rename_i hn
      simp [hn] at hr
    · rename_i hn
      simp only [hn, if_false] at hr
      split
      · rename_i createErr hc
        simp [hc] at hr
      · rename_i hc
        simp only [hc] at hr
        exact connect_registerCount_ok _ _ _ _ _ _ _ (by rfl) hr

theorem run_invariant (env : Env) (P : Race → Prop)
    (hstep : ∀ r who, P r → P (Race.step env r who)) :
    ∀ (schedule : List Bool) (r : Race), P r → P (Race.run env r schedule) := by
  intro schedule
  induction schedule with
  | nil => intro r h; exact h
  | cons who rest ih =>
    intro r h
    exact ih _ (hstep r who h)

theorem step_passed (env : Env) (sh : Shared) (c : Caller) (h : c.passed) :
    (Caller.step env sh c).2.passed := by
  rcases h with ⟨hpc | hpc, ht⟩ | ⟨out, hpc, ho, hr⟩
  · left
    simp [Caller.step, hpc, ht]
  · right
    refine ⟨(Init.rest env sh.world sh.inst c.options).out, ?_, ?_, ?_⟩
    · simp [Caller.step, hpc]
    · simpa [Caller.step, hpc] using rest_openCount env sh.world sh.inst c.options
    · intro hout
      simpa [Caller.step, hpc] using rest_registerCount env sh.world sh.inst c.options hout
  · right
    refine ⟨out, ?_, ?_, ?_⟩
    · simp [Caller.step, hpc]
    · simpa [Caller.step, hpc] using ho
    · simpa [Caller.step, hpc] using hr

theorem step_passed_flag (env : Env) (sh : Shared) (c : Caller) (h : c.passed)
    (hf : sh.inst.initialized = true) :
    (Caller.step env sh c).1.inst.initialized = true := by
  rcases h with ⟨hpc | hpc, _⟩ | ⟨out, hpc, _, _⟩
  · simp [Caller.step, hpc]
  · simp [Caller.step, hpc, rest_initialized, hf]
  · simp [Caller.step, hpc, hf]

theorem step_late (env : Env) (sh : Shared) (c : Caller) (h : c.late)
    (hf : sh.inst.initialized = true) :
    (Caller.step env sh c).2.late ∧ (Caller.step env sh c).1 = sh := by
  rcases h with ⟨hpc | hpc, ht⟩
  · simp [Caller.step, hpc, hf, Caller.late, ht]
  · simp [Caller.step, hpc, Caller.late, ht]

theorem passed_openCount_le (c : Caller) (h : c.passed) : openCount c.trace ≤ 1 := by
  rcases h with ⟨_, ht⟩ | ⟨out, _, ho, _⟩
  · rw [ht]; exact Nat.zero_le 1
  · exact le_of_eq ho

theorem after_two_reads (env : Env) (w : World) (s : sqliteDb) (o₁ o₂ : Options) (a : Bool)
    (hs : s.initialized = false) :
    Race.run env (Race.start w s o₁ o₂) [a, !a] =
      { shared := { inst := s, world := w }
        first := { options := o₁, pc := .mark, trace := [] }
        second := { options := o₂, pc := .mark, trace := [] } } := by
  cases a <;> simp [Race.run, Race.step, Caller.step, Race.start, hs]

theorem race_passed (env : Env) (w : World) (s : sqliteDb) (o₁ o₂ : Options) (a : Bool)
    (schedule : List Bool) (hs : s.initialized = false) :
    (Race.run env (Race.start w s o₁ o₂) (a :: (!a) :: schedule)).first.passed ∧
    (Race.run env (Race.start w s o₁ o₂) (a :: (!a) :: schedule)).second.passed := by
  have h2 := after_two_reads env w s o₁ o₂ a hs
  have hrun : Race.run env (Race.start w s o₁ o₂) (a :: (!a) :: schedule) =
      Race.run env (Race.run env (Race.start w s o₁ o₂) [a, !a]) schedule := by
    simp [Race.run]
  rw [hrun, h2]
  refine run_invariant env (fun r => r.first.passed ∧ r.second.passed) ?_ schedule _ ?_
  · intro r who ⟨h1, h2⟩
    cases who
    · exact ⟨by simpa [Race.step] using step_passed env r.shared r.first h1,
        by simpa [Race.step] using h2⟩
    · exact ⟨by simpa [Race.step] using h1,
        by simpa [Race.step] using step_passed env r.shared r.second h2⟩
  · exact ⟨Or.inl ⟨Or.inl rfl, rfl⟩, Or.inl ⟨Or.inl rfl, rfl⟩⟩

theorem race_late (env : Env) (w : World) (s : sqliteDb) (o₁ o₂ : Options)
    (schedule : List Bool) (hs : s.initialized = false) :
    (Race.run env (Race.start w s o₁ o₂) (false :: false :: schedule)).first.passed ∧
    (Race.run env (Race.start w s o₁ o₂) (false :: false :: schedule)).second.late := by
  have hrun : Race.run env (Race.start w s o₁ o₂) (false :: false :: schedule) =
      Race.run env
        { shared := { inst := { s with initialized := true }, world := w }
          first := { options := o₁, pc := .rest, trace := [] }
          second := { options := o₂, pc := .check, trace := [] } } schedule := by
    simp [Race.run, Race.step, Caller.step, Race.start, hs]
  rw [hrun]
  have key := run_invariant env
    (fun r => r.shared.inst.initialized = true ∧ r.first.passed ∧ r.second.late) ?_ schedule
    { shared := { inst := { s with initialized := true }, world := w }
      first := { options := o₁, pc := .rest, trace := [] }
      second := { options := o₂, pc := .check, trace := [] } }
    ⟨rfl, Or.inl ⟨Or.inr rfl, rfl⟩, ⟨Or.inl rfl, rfl⟩⟩
  · exact key.2
  · intro r who ⟨hf, h1, h2⟩
    cases who
    · exact ⟨by simpa [Race.step] using step_passed_flag env r.shared r.first h1 hf,
        by simpa [Race.step] using step_passed env r.shared r.first h1,
        by simpa [Race.step] using h2⟩
    · have hl := step_late env r.shared r.second h2 hf
      refine ⟨?_, by simpa [Race.step] using h1, by simpa [Race.step] using hl.1⟩
      simp only [Race.step, if_true, hl.2]
      exact hf

theorem alone_is_Init (env : Env) (w : World) (s : sqliteDb) (o₁ o₂ : Options)
    (hs : s.initialized = false) :
    (Race.run env (Race.start w s o₁ o₂) [false, false, false]).first =
      { options := o₁, pc := .done (Init env w s o₁).out, trace := (Init env w s o₁).trace } ∧
    (Race.run env (Race.start w s o₁ o₂) [false, false, false]).shared =
      { inst := (Init env w s o₁).inst, world := (Init env w s o₁).world } := by
  rw [Init_eq_rest env w s o₁ hs]
  simp [Race.run, Race.step, Caller.step, Race.start, hs]

/-- C14: the check-then-open sequence of `Init` is not atomic.  Two callers of `Init`
on one instance whose flag is false, interleaved in any way in which both read the
flag (in either order) before either writes it: each caller that returns has opened
the engine exactly once, so the two together have opened it twice, and have
registered two shutdown callbacks if both returned nil; and there are schedules in
which both return.  When the second caller reads the flag only after the first has
written it, the second returns nil without a call on any collaborator and the
engine is opened at most once. -/
theorem check_then_open_not_atomic (env : Env) (w : World) (s : sqliteDb)
    (o₁ o₂ : Options) (a : Bool) (schedule : List Bool) (hs : s.initialized = false) :
    (∀ out₁ out₂,
      (Race.run env (Race.start w s o₁ o₂) (a :: (!a) :: schedule)).first.pc = .done out₁ →
      (Race.run env (Race.start w s o₁ o₂) (a :: (!a) :: schedule)).second.pc = .done out₂ →
      openCount (Race.run env (Race.start w s o₁ o₂) (a :: (!a) :: schedule)).first.trace = 1 ∧
      openCount (Race.run env (Race.start w s o₁ o₂) (a :: (!a) :: schedule)).second.trace = 1 ∧
      openCount
        ((Race.run env (Race.start w s o₁ o₂) (a :: (!a) :: schedule)).first.trace ++
          (Race.run env (Race.start w s o₁ o₂) (a :: (!a) :: schedule)).second.trace) = 2 ∧
      (out₁ = .returned none → out₂ = .returned none →
        registerCount
          ((Race.run env (Race.start w s o₁ o₂) (a :: (!a) :: schedule)).first.trace ++
            (Race.run env (Race.start w s o₁ o₂) (a :: (!a) :: schedule)).second.trace)
          = 2)) ∧
    (∃ out₁ out₂,
      (Race.run env (Race.start w s o₁ o₂) [a, !a, false, false, true, true]).first.pc
        = .done out₁ ∧
      (Race.run env (Race.start w s o₁ o₂) [a, !a, false, false, true, true]).second.pc
        = .done out₂) ∧
    (∀ out,
      (Race.run env (Race.start w s o₁ o₂) (false :: false :: schedule)).second.pc
        = .done out →
      out = .returned none ∧
      (Race.run env (Race.start w s o₁ o₂) (false :: false :: schedule)).second.trace = [] ∧
      openCount
        ((Race.run env (Race.start w s o₁ o₂) (false :: false :: schedule)).first.trace ++
          (Race.run env (Race.start w s o₁ o₂) (false :: false :: schedule)).second.trace)
        ≤ 1) := by
  refine ⟨?_, ?_, ?_⟩
  · intro out₁ out₂ h1 h2
    obtain ⟨hp1, hp2⟩ := race_passed env w s o₁ o₂ a schedule hs
    have e1 : openCount (Race.run env (Race.start w s o₁ o₂)
          (a :: (!a) :: schedule)).first.trace = 1 ∧
        (out₁ = .returned none → registerCount (Race.run env (Race.start w s o₁ o₂)
          (a :: (!a) :: schedule)).first.trace = 1) := by
      rcases hp1 with ⟨hpc | hpc, _⟩ | ⟨out, hpc, ho, hr⟩
      · rw [hpc] at h1; cases h1
      · rw [hpc] at h1; cases h1
      · rw [hpc] at h1
        cases h1
        exact ⟨ho, hr⟩
    have e2 : openCount (Race.run env (Race.start w s o₁ o₂)
          (a :: (!a) :: schedule)).second.trace = 1 ∧
        (out₂ = .returned none → registerCount (Race.run env (Race.start w s o₁ o₂)
          (a :: (!a) :: schedule)).second.trace = 1) := by
      rcases hp2 with ⟨hpc | hpc, _⟩ | ⟨out, hpc, ho, hr⟩
      · rw [hpc] at h2; cases h2
      · rw [hpc] at h2; cases h2
      · rw [hpc] at h2
        cases h2
        exact ⟨ho, hr⟩
    refine ⟨e1.1, e2.1, ?_, ?_⟩
    · have h1' := e1.1
      have h2' := e2.1
      simp only [openCount, List.countP_append] at h1' h2' ⊢
      rw [h1', h2']
    · intro hn1 hn2
      have h1' := e1.2 hn1
      have h2' := e2.2 hn2
      simp only [registerCount, List.countP_append] at h1' h2' ⊢
      rw [h1', h2']
  · have h2 := after_two_reads env w s o₁ o₂ a hs
    have hrun : Race.run env (Race.start w s o₁ o₂) [a, !a, false, false, true, true] =
        Race.run env (Race.run env (Race.start w s o₁ o₂) [a, !a])
          [false, false, true, true] := by
      simp [Race.run]
    rw [hrun, h2]
    simp [Race.run, Race.step, Caller.step]
  · intro out hd
    obtain ⟨hp1, hl⟩ := race_late env w s o₁ o₂ schedule hs
    obtain ⟨hpc, ht⟩ := hl
    refine ⟨?_, ht, ?_⟩
    · rcases hpc with hpc | hpc
      · rw [hpc] at hd; cases hd
      · rw [hpc] at hd
        cases hd
        rfl
    · rw [ht, List.append_nil]
      exact passed_openCount_le _ hp1

/-- Witness of C14: two callers on the zero instance with the engine that opens every
data source, interleaved step by step after both have read the flag: two opens and
two registrations. -/
theorem check_then_open_not_atomic_witness :
    openCount
      ((Race.run envOk (Race.start ⟨[]⟩ sqliteDb.zero (optionsFor "a.db") (optionsFor "a.db"))
          (false :: (!false) :: [false, true, false, true])).first.trace ++
        (Race.run envOk (Race.start ⟨[]⟩ sqliteDb.zero (optionsFor "a.db") (optionsFor "a.db"))
          (false :: (!false) :: [false, true, false, true])).second.trace) = 2 ∧
    registerCount
      ((Race.run envOk (Race.start ⟨[]⟩ sqliteDb.zero (optionsFor "a.db") (optionsFor "a.db"))
          (false :: (!false) :: [false, true, false, true])).first.trace ++
        (Race.run envOk (Race.start ⟨[]⟩ sqliteDb.zero (optionsFor "a.db") (optionsFor "a.db"))
          (false :: (!false) :: [false, true, false, true])).second.trace) = 2 :=
  ⟨((check_then_open_not_atomic envOk ⟨[]⟩ sqliteDb.zero (optionsFor "a.db")
      (optionsFor "a.db") false [false, true, false, true] rfl).1
      (.returned none) (.returned none) (by decide) (by decide)).2.2.1,
   ((check_then_open_not_atomic envOk ⟨[]⟩ sqliteDb.zero (optionsFor "a.db")
      (optionsFor "a.db") false [false, true, false, true] rfl).1
      (.returned none) (.returned none) (by decide) (by decide)).2.2.2 rfl rfl⟩

end sqlite

namespace text

/-! ## Decryption undoes encryption -/

theorem decodeMap_encode (n : Nat) : decodeMap (encode (n % 64)) = some (n % 64) := by
  have h : ∀ i : Fin 64, decodeMap (encode i.val) = some i.val := by decide
  exact h ⟨n % 64, Nat.mod_lt _ (by decide)⟩

theorem xor_cancel (a b : Byte) : (a ^^^ b) ^^^ b = a := by
  apply Fin.ext
  have h1 : a.val ^^^ b.val < 256 := Nat.xor_lt_two_pow (n := 8) a.isLt b.isLt
  show ((a.val ^^^ b.val) % 256 ^^^ b.val) % 256 = a.val
  rw [Nat.mod_eq_of_lt h1, Nat.xor_assoc, Nat.xor_self, Nat.xor_zero]
  exact Nat.mod_eq_of_lt a.isLt

theorem XORBytes_cancel : ∀ (p out : List Byte), p.length ≤ out.length →
    XORBytes (XORBytes p out) out = p
  | [], _, _ => by simp [XORBytes]
  | a :: p, [], h => by simp at h
  | a :: p, b :: out, h => by
    have ih := XORBytes_cancel p out (by simpa using h)
    simp only [XORBytes, List.zipWith_cons_cons] at ih ⊢
    rw [ih, xor_cancel]

theorem XORBytes_length (p out : List Byte) :
    (XORBytes p out).length = min p.length out.length := by
  simp [XORBytes]

theorem cfbEncrypt_nil (aes : AES) (key next : List Byte) :
    cfbEncrypt aes key next [] = [] := by
  rw [cfbEncrypt]

theorem cfbDecrypt_nil (aes : AES) (key next : List Byte) :
    cfbDecrypt aes key next [] = [] := by
  rw [cfbDecrypt]

theorem cfbEncrypt_step (aes : AES) (key next src : List Byte) (h : src ≠ []) :
    cfbEncrypt aes key next src =
      XORBytes (src.take BlockSize) (aes.encrypt key next) ++
        cfbEncrypt aes key
          (XORBytes (src.take BlockSize) (aes.encrypt key next) ++
            next.drop (XORBytes (src.take BlockSize) (aes.encrypt key next)).length)
          (src.drop BlockSize) := by
  cases src with
  | nil => exact absurd rfl h
  | cons b rest => rw [cfbEncrypt]

theorem cfbDecrypt_step (aes : AES) (key next src : List Byte) (h : src ≠ []) :
    cfbDecrypt aes key next src =
      XORBytes (src.take BlockSize) (aes.encrypt key next) ++
        cfbDecrypt aes key (src.take BlockSize ++ next.drop (src.take BlockSize).length)
          (src.drop BlockSize) := by
  cases src with
  | nil => exact absurd rfl h
  | cons b rest => rw [cfbDecrypt]

theorem cfb_roundtrip (aes : AES) (key : List Byte) :
    ∀ (n : Nat) (src next : List Byte), src.length ≤ n →
      cfbDecrypt aes key next (cfbEncrypt aes key next src) = src := by
  intro n
  induction n with
  | zero =>
    intro src next h
    have : src = [] := List.length_eq_zero.mp (Nat.le_zero.mp h)
    subst this
    rw [cfbEncrypt_nil, cfbDecrypt_nil]
  | succ n ih =>
    intro src next h
    by_cases hs : src = []
    · subst hs
      rw [cfbEncrypt_nil, cfbDecrypt_nil]
    · have hpos : 0 < src.length := List.length_pos.mpr hs
      have hout : (aes.encrypt key next).length = BlockSize := aes.encrypt_length key next
      have htake : (src.take BlockSize).length ≤ (aes.encrypt key next).length := by
        rw [hout, List.length_take]; exact Nat.min_le_left _ _
      have hlen : (XORBytes (src.take BlockSize) (aes.encrypt key next)).length =
          (src.take BlockSize).length := by
        rw [XORBytes_length]; exact Nat.min_eq_left htake
      have hrest : (src.drop BlockSize).length ≤ n := by
        simp only [List.length_drop, BlockSize]; omega
      rw [cfbEncrypt_step aes key next src hs]
      generalize hd : XORBytes (src.take BlockSize) (aes.encrypt key next) = dst at hlen ⊢
      generalize hr : cfbEncrypt aes key (dst ++ next.drop dst.length) (src.drop BlockSize)
        = rest
      have hne : dst ++ rest ≠ [] := by
        intro hnil
        have h0 : dst.length = 0 := by
          rw [(List.append_eq_nil.mp hnil).1]; rfl
        rw [hlen, List.length_take, BlockSize] at h0
        omega
      have hsplit : (dst ++ rest).take BlockSize = dst ∧ (dst ++ rest).drop BlockSize = rest := by
        by_cases hl : BlockSize ≤ src.length
        · have hdl : dst.length = BlockSize := by
            rw [hlen, List.length_take]; exact Nat.min_eq_left hl
          constructor
          · rw [← hdl, List.take_left]
          · rw [← hdl, List.drop_left]
        · have hnil : src.drop BlockSize = [] :=
            List.drop_eq_nil_of_le (Nat.le_of_lt (Nat.lt_of_not_le hl))
          have hrn : rest = [] := by rw [← hr, hnil, cfbEncrypt_nil]
          have hdl : dst.length ≤ BlockSize := by
            rw [hlen, List.length_take]; exact Nat.min_le_left _ _
          subst hrn
          rw [List.append_nil]
          exact ⟨List.take_of_length_le hdl, List.drop_eq_nil_of_le hdl⟩
      rw [cfbDecrypt_step aes key next _ hne, hsplit.1, hsplit.2, ← hr, ih _ _ hrest, ← hd,
        XORBytes_cancel _ _ htake, List.take_append_drop]

theorem decodeMap_padding : decodeMap StdPadding = none := by decide

theorem toByte_val (a : Byte) (n : Nat) (h : n % 256 = a.val) : toByte n = a :=
  Fin.ext h

theorem isNewline_padding : isNewline StdPadding = false := by decide

theorem quantum_two (d0 d1 : Nat) :
    quantum d0 d1 0 0 2 = [toByte ((d0 * 262144 + d1 * 4096 + 0 * 64 + 0) / 65536)] := rfl

theorem quantum_three (d0 d1 d2 : Nat) :
    quantum d0 d1 d2 0 3 =
      [toByte ((d0 * 262144 + d1 * 4096 + d2 * 64 + 0) / 65536),
       toByte ((d0 * 262144 + d1 * 4096 + d2 * 64 + 0) / 256)] := rfl

theorem quantum_four (d0 d1 d2 d3 : Nat) :
    quantum d0 d1 d2 d3 4 =
      [toByte ((d0 * 262144 + d1 * 4096 + d2 * 64 + d3) / 65536),
       toByte ((d0 * 262144 + d1 * 4096 + d2 * 64 + d3) / 256),
       toByte (d0 * 262144 + d1 * 4096 + d2 * 64 + d3)] := rfl

theorem decode_encode : ∀ (bs : List Byte), decodeLoop [] (EncodeToString bs) = .ok bs
  | [] => rfl
  | [a] => by
    have ha := a.isLt
    simp only [EncodeToString, decodeLoop, decodeMap_encode, decodeMap_padding,
      List.nil_append, List.cons_append, skipNewlines, isNewline_padding, quantum_two,
      Bool.false_eq_true, if_false, ne_eq, not_true_eq_false, not_false_eq_true, if_true]
    congr 2
    apply toByte_val
    omega
  | [a, b] => by
    have ha := a.isLt
    have hb := b.isLt
    simp only [EncodeToString, decodeLoop, decodeMap_encode, decodeMap_padding,
      List.nil_append, List.cons_append, skipNewlines, isNewline_padding, quantum_three,
      Bool.false_eq_true, if_false, ne_eq, not_true_eq_false, not_false_eq_true, if_true]
    have h0 : toByte (((a.val * 65536 + b.val * 256) / 262144 % 64 * 262144 +
        (a.val * 65536 + b.val * 256) / 4096 % 64 * 4096 +
        (a.val * 65536 + b.val * 256) / 64 % 64 * 64 + 0) / 65536) = a := by
      apply toByte_val; omega
    have h1 : toByte (((a.val * 65536 + b.val * 256) / 262144 % 64 * 262144 +
        (a.val * 65536 + b.val * 256) / 4096 % 64 * 4096 +
        (a.val * 65536 + b.val * 256) / 64 % 64 * 64 + 0) / 256) = b := by
      apply toByte_val; omega
    rw [h0, h1]
  | a :: b :: c :: rest => by
    have ha := a.isLt
    have hb := b.isLt
    have hc := c.isLt
    have ih := decode_encode rest
    simp only [EncodeToString, decodeLoop, decodeMap_encode,
      List.nil_append, List.cons_append, ih, quantum_four]
    have h0 : toByte (((a.val * 65536 + b.val * 256 + c.val) / 262144 % 64 * 262144 +
        (a.val * 65536 + b.val * 256 + c.val) / 4096 % 64 * 4096 +
        (a.val * 65536 + b.val * 256 + c.val) / 64 % 64 * 64 +
        (a.val * 65536 + b.val * 256 + c.val) % 64) / 65536) = a := by
      apply toByte_val; omega
    have h1 : toByte (((a.val * 65536 + b.val * 256 + c.val) / 262144 % 64 * 262144 +
        (a.val * 65536 + b.val * 256 + c.val) / 4096 % 64 * 4096 +
        (a.val * 65536 + b.val * 256 + c.val) / 64 % 64 * 64 +
        (a.val * 65536 + b.val * 256 + c.val) % 64) / 256) = b := by
      apply toByte_val; omega
    have h2 : toByte ((a.val * 65536 + b.val * 256 + c.val) / 262144 % 64 * 262144 +
        (a.val * 65536 + b.val * 256 + c.val) / 4096 % 64 * 4096 +
        (a.val * 65536 + b.val * 256 + c.val) / 64 % 64 * 64 +
        (a.val * 65536 + b.val * 256 + c.val) % 64) = c := by
      apply toByte_val; omega
    rw [h0, h1, h2]

theorem DecodeString_EncodeToString (bs : List Byte) :
    DecodeString (EncodeToString bs) = .ok bs := decode_encode bs

theorem NewCipher_ok (key : List Byte)
    (h : key.length = 16 ∨ key.length = 24 ∨ key.length = 32) : NewCipher key = .ok key := by
  simp [NewCipher, h]

/-- C3: decryption undoes encryption.  For every message, every secret of 16, 24 or
32 bytes and every 16 bytes the random source fills the IV with, and whatever the
block function is, `EncryptMessageWithAES` succeeds and `DecryptMessageWithAES` on its
result, with the same secret, succeeds and returns the message. -/
theorem decrypt_encrypt (aes : AES) (iv message secret : List Byte)
    (hk : secret.length = 16 ∨ secret.length = 24 ∨ secret.length = 32)
    (hiv : iv.length = BlockSize) :
    (EncryptMessageWithAES aes (.ok iv) message secret).2 = none ∧
    DecryptMessageWithAES aes (EncryptMessageWithAES aes (.ok iv) message secret).1 secret
      = (message, none) := by
  simp only [EncryptMessageWithAES, DecryptMessageWithAES, NewCipher_ok secret hk,
    DecodeString_EncodeToString, true_and]
  have h1 : ¬ (iv ++ cfbEncrypt aes secret iv message).length < BlockSize := by
    rw [List.length_append, hiv]; omega
  rw [if_neg h1, ← hiv, List.take_left, List.drop_left, cfb_roundtrip aes secret _ _ _ le_rfl]

/-- Witness of C3: the message "i love u" under the secret "1234567890123456", as in
`TestEncoding`, with the IV "0123456789abcdef". -/
theorem decrypt_encrypt_witness :
    (EncryptMessageWithAES toyAES (.ok (bytesOf "0123456789abcdef")) (bytesOf "i love u")
      (bytesOf "1234567890123456")).2 = none ∧
    DecryptMessageWithAES toyAES
      (EncryptMessageWithAES toyAES (.ok (bytesOf "0123456789abcdef")) (bytesOf "i love u")
        (bytesOf "1234567890123456")).1 (bytesOf "1234567890123456")
      = (bytesOf "i love u", none) :=
  decrypt_encrypt toyAES (bytesOf "0123456789abcdef") (bytesOf "i love u")
    (bytesOf "1234567890123456") (Or.inl (by decide)) (by decide)

theorem NewCipher_error (key : List Byte)
    (h : ¬ (key.length = 16 ∨ key.length = 24 ∨ key.length = 32)) :
    NewCipher key = .error (.KeySizeError key.length) := by
  simp only [NewCipher, if_neg h]

theorem cfbDecrypt_length (aes : AES) (key : List Byte) :
    ∀ (n : Nat) (src next : List Byte), src.length ≤ n →
      (cfbDecrypt aes key next src).length = src.length := by
  intro n
  induction n with
  | zero =>
    intro src next h
    have : src = [] := List.length_eq_zero.mp (Nat.le_zero.mp h)
    subst this
    rw [cfbDecrypt_nil]
  | succ n ih =>
    intro src next h
    by_cases hs : src = []
    · subst hs
      rw [cfbDecrypt_nil]
    · have hpos : 0 < src.length := List.length_pos.mpr hs
      have hrest : (src.drop BlockSize).length ≤ n := by
        simp only [List.length_drop, BlockSize]; omega
      rw [cfbDecrypt_step aes key next src hs, List.length_append, ih _ _ hrest,
        XORBytes_length, aes.encrypt_length, List.length_take, List.length_drop]
      omega

/-- C13: the secret must be 16, 24 or 32 bytes long.  With a secret of any other
length, `EncryptMessageWithAES` and `DecryptMessageWithAES` return the empty string
and the key size error, for every message and whatever the random source does.  With
a secret of one of the three lengths, `EncryptMessageWithAES` succeeds for every
message once the random source has delivered an IV. -/
theorem secret_length_checked (aes : AES) (randRead : Except Err (List Byte))
    (message encrypted secret iv : List Byte) :
    (¬ (secret.length = 16 ∨ secret.length = 24 ∨ secret.length = 32) →
      EncryptMessageWithAES aes randRead message secret
        = ([], some (.KeySizeError secret.length)) ∧
      DecryptMessageWithAES aes encrypted secret
        = ([], some (.KeySizeError secret.length))) ∧
    ((secret.length = 16 ∨ secret.length = 24 ∨ secret.length = 32) →
      (EncryptMessageWithAES aes (.ok iv) message secret).2 = none ∧
      (EncryptMessageWithAES aes (.ok iv) message secret).1 =
        EncodeToString (iv ++ cfbEncrypt aes secret iv message)) := by
  constructor
  · intro h
    simp only [EncryptMessageWithAES, DecryptMessageWithAES, NewCipher_error secret h,
      and_self]
  · intro h
    simp only [EncryptMessageWithAES, NewCipher_ok secret h, and_self]

/-- Witness of C13: the 5-byte secret "short" is refused by both functions, and the
16-byte secret "1234567890123456" is accepted. -/
theorem secret_length_checked_witness :
    (EncryptMessageWithAES toyAES (.ok (bytesOf "0123456789abcdef")) (bytesOf "i love u")
        (bytesOf "short") = ([], some (.KeySizeError (bytesOf "short").length)) ∧
      DecryptMessageWithAES toyAES (bytesOf "aSBsb3ZlIHU=") (bytesOf "short")
        = ([], some (.KeySizeError (bytesOf "short").length))) ∧
    ((EncryptMessageWithAES toyAES (.ok (bytesOf "0123456789abcdef")) (bytesOf "i love u")
        (bytesOf "1234567890123456")).2 = none ∧
      (EncryptMessageWithAES toyAES (.ok (bytesOf "0123456789abcdef")) (bytesOf "i love u")
        (bytesOf "1234567890123456")).1 =
        EncodeToString (bytesOf "0123456789abcdef" ++
          cfbEncrypt toyAES (bytesOf "1234567890123456") (bytesOf "0123456789abcdef")
            (bytesOf "i love u"))) :=
  ⟨(secret_length_checked toyAES (.ok (bytesOf "0123456789abcdef")) (bytesOf "i love u")
      (bytesOf "aSBsb3ZlIHU=") (bytesOf "short") (bytesOf "0123456789abcdef")).1 (by decide),
   (secret_length_checked toyAES (.ok (bytesOf "0123456789abcdef")) (bytesOf "i love u")
      (bytesOf "aSBsb3ZlIHU=") (bytesOf "1234567890123456")
      (bytesOf "0123456789abcdef")).2 (Or.inl (by decide))⟩

/-- C16: with a secret of 16, 24 or 32 bytes, `DecryptMessageWithAES` returns an
error exactly when the input is refused by the standard base64 decoder or decodes to
fewer than 16 bytes, and then the result is the empty string.  Otherwise the IV it
hands to the CFB decrypter is 16 bytes long (so the decrypter does not panic), it
succeeds, and the plaintext is as long as the decoded input less 16 bytes; an input
that decodes to exactly 16 bytes gives the empty string. -/
theorem decrypt_error_iff (aes : AES) (encrypted secret : List Byte)
    (hk : secret.length = 16 ∨ secret.length = 24 ∨ secret.length = 32) :
    ((DecryptMessageWithAES aes encrypted secret).2 ≠ none ↔
      ((∃ e, DecodeString encrypted = .error e) ∨
        (∃ bs, DecodeString encrypted = .ok bs ∧ bs.length < BlockSize))) ∧
    ((DecryptMessageWithAES aes encrypted secret).2 ≠ none →
      (DecryptMessageWithAES aes encrypted secret).1 = []) ∧
    (∀ bs, DecodeString encrypted = .ok bs → BlockSize ≤ bs.length →
      (bs.take BlockSize).length = BlockSize ∧
      (DecryptMessageWithAES aes encrypted secret).2 = none ∧
      (DecryptMessageWithAES aes encrypted secret).1.length = bs.length - BlockSize) ∧
    (∀ bs, DecodeString encrypted = .ok bs → bs.length = BlockSize →
      DecryptMessageWithAES aes encrypted secret = ([], none)) := by
  cases hd : DecodeString encrypted with
  | error e =>
    simp [DecryptMessageWithAES, NewCipher_ok secret hk, hd]
  | ok bs =>
    by_cases hl : bs.length < BlockSize
    · simp only [DecryptMessageWithAES, NewCipher_ok secret hk, hd, if_pos hl]
      refine ⟨?_, ?_, ?_, ?_⟩
      · simp [hl]
      · simp
      · intro bs' hbs hge
        simp only [Except.ok.injEq] at hbs
        subst hbs
        omega
      · intro bs' hbs he
        simp only [Except.ok.injEq] at hbs
        subst hbs
        omega
    · simp only [DecryptMessageWithAES, NewCipher_ok secret hk, hd, if_neg hl]
      refine ⟨?_, ?_, ?_, ?_⟩
      · simp [hl]
      · simp
      · intro bs' hbs hge
        simp only [Except.ok.injEq] at hbs
        subst hbs
        refine ⟨?_, trivial, ?_⟩
        · rw [List.length_take]; omega
        · simp only [cfbDecrypt_length aes secret _ _ _ le_rfl, List.length_drop]
      · intro bs' hbs he
        simp only [Except.ok.injEq] at hbs
        subst hbs
        have hnil : List.drop BlockSize bs = [] := List.drop_eq_nil_of_le (le_of_eq he)
        rw [hnil, cfbDecrypt_nil]

/-- Witness of C16: the base64 text of the 16 bytes "0123456789abcdef" decrypts to
the empty string, and the text "!", which is not base64, gives an error. -/
theorem decrypt_error_iff_witness :
    DecryptMessageWithAES toyAES (EncodeToString (bytesOf "0123456789abcdef"))
      (bytesOf "1234567890123456") = ([], none) ∧
    (DecryptMessageWithAES toyAES (bytesOf "!") (bytesOf "1234567890123456")).2 ≠ none :=
  ⟨(decrypt_error_iff toyAES (EncodeToString (bytesOf "0123456789abcdef"))
      (bytesOf "1234567890123456") (Or.inl (by decide))).2.2.2
      (bytesOf "0123456789abcdef") (DecodeString_EncodeToString _) (by decide),
   (decrypt_error_iff toyAES (bytesOf "!") (bytesOf "1234567890123456")
      (Or.inl (by decide))).1.mpr (Or.inl ⟨.CorruptInputError, rfl⟩)⟩

end text

namespace openai

/-! ## The enum getter and the content getter -/

/-- C15 (the code at the failing input): "gpt-4" and the empty string are not
supported fine-tuning models, and for each of them
`getAvailableFineTuningModelEnum` returns "davinci-002", not "gpt-3.5-turbo-1106",
the constant the source marks as the default; the two supported values are returned
unchanged. -/
theorem fine_tuning_fallback_is_davinci :
    supportedAvailableFineTuningModelEnum.lookup "gpt-4" = none ∧
    getAvailableFineTuningModelEnum "gpt-4" = "davinci-002" ∧
    getAvailableFineTuningModelEnum "gpt-4" ≠ AvailableFineTuningModelEnumGPT35.String ∧
    getAvailableFineTuningModelEnum "" = "davinci-002" ∧
    getAvailableFineTuningModelEnum AvailableFineTuningModelEnumGPT35 = "gpt-3.5-turbo-1106" ∧
    getAvailableFineTuningModelEnum AvailableFineTuningModelEnumDavinci = "davinci-002" := by
  decide

theorem firstText_append (pre rest : List ContentPart)
    (h : ∀ p ∈ pre, p.Type' ≠ "text") : firstText (pre ++ rest) = firstText rest := by
  induction pre with
  | nil => rfl
  | cons p pre ih =>
    have hp : p.Type' ≠ "text" := h p (List.mem_cons_self _ _)
    have hrest : ∀ q ∈ pre, q.Type' ≠ "text" := fun q hq => h q (List.mem_cons_of_mem _ hq)
    simp only [List.cons_append, firstText, if_neg hp]
    exact ih hrest

theorem firstText_none (parts : List ContentPart)
    (h : ∀ p ∈ parts, p.Type' ≠ "text") : firstText parts = none := by
  have := firstText_append parts [] h
  rwa [List.append_nil] at this

/-- C17: what `GetStringContent` returns, with the decoder of `encoding/json` as a
parameter.  When the content decodes to a Go string, that string.  When it decodes to
an array and the array decodes as content parts, the `Text` of the first part whose
`Type` is "text".  In every other case the raw content: the content does not decode,
or it decodes to a value that is neither a string nor an array, or it decodes to an
array that does not decode as content parts, or no part has the `Type` "text". -/
theorem GetStringContent_cases (json : JSON) (co : ChatMessageObject) :
    (∀ s, json.unmarshalAny co.Content = some (.string s) →
      GetStringContent json co = s) ∧
    (∀ pre item post, json.unmarshalAny co.Content = some .array →
      json.unmarshalImageContent co.Content = some (pre ++ item :: post) →
      (∀ p ∈ pre, p.Type' ≠ "text") → item.Type' = "text" →
      GetStringContent json co = item.Text) ∧
    (json.unmarshalAny co.Content = none → GetStringContent json co = co.Content) ∧
    (∀ v, json.unmarshalAny co.Content = some v → v ≠ .array → (∀ s, v ≠ .string s) →
      GetStringContent json co = co.Content) ∧
    (json.unmarshalAny co.Content = some .array →
      json.unmarshalImageContent co.Content = none →
      GetStringContent json co = co.Content) ∧
    (∀ parts, json.unmarshalAny co.Content = some .array →
      json.unmarshalImageContent co.Content = some parts →
      (∀ p ∈ parts, p.Type' ≠ "text") →
      GetStringContent json co = co.Content) := by
  refine ⟨?_, ?_, ?_, ?_, ?_, ?_⟩
  · intro s h
    simp only [GetStringContent, h]
  · intro pre item post ha hp hpre hitem
    have hf : firstText (pre ++ item :: post) = some item.Text := by
      rw [firstText_append pre _ hpre]
      simp only [firstText, if_pos hitem]
    simp only [GetStringContent, ha, hp, hf]
  · intro h
    simp only [GetStringContent, h]
  · intro v h hna hns
    by_cases hnull : v = .null
    · subst hnull
      have hp := json.null_into_slice co.Content h
      simp only [GetStringContent, h, hp, firstText]
    · have hp := json.mismatch_into_slice co.Content v h hnull hna
      cases v with
      | string s => exact absurd rfl (hns s)
      | null => simp only [GetStringContent, h, hp]
      | bool b => simp only [GetStringContent, h, hp]
      | number => simp only [GetStringContent, h, hp]
      | array => simp only [GetStringContent, h, hp]
      | object => simp only [GetStringContent, h, hp]
  · intro ha hp
    simp only [GetStringContent, ha, hp]
  · intro parts ha hp hnone
    simp only [GetStringContent, ha, hp, firstText_none parts hnone]

/-- Witness of C17: a string literal, an array whose second part is the first of type
"text", a text that does not decode, and a number. -/
theorem GetStringContent_cases_witness :
    GetStringContent toyJSON { Role := "user", Content := "\"hello\"" } = "hello" ∧
    GetStringContent toyJSON
      { Role := "user"
        Content := sampleParts } = "hi" ∧
    GetStringContent toyJSON { Role := "user", Content := "\x7boops" } = "\x7boops" ∧
    GetStringContent toyJSON { Role := "user", Content := "42" } = "42" :=
  ⟨(GetStringContent_cases toyJSON { Role := "user", Content := "\"hello\"" }).1 "hello" rfl,
   (GetStringContent_cases toyJSON
      { Role := "user"
        Content := sampleParts }).2.1
      [{ Text := "", Type' := "image_url", ImageUrl := { Detail := "", Url := "" } }]
      { Text := "hi", Type' := "text", ImageUrl := { Detail := "", Url := "" } } []
      rfl rfl (by decide) rfl,
   (GetStringContent_cases toyJSON { Role := "user", Content := "\x7boops" }).2.2.1 rfl,
   (GetStringContent_cases toyJSON { Role := "user", Content := "42" }).2.2.2.1 .number rfl
      (by decide) (fun s h => by cases h)⟩

end openai

namespace database

/-! ## The reflection predicates -/

theorem indirect_pointerTo (n : Nat) (v : Value) : indirect (pointerTo n v) = indirect v := by
  induction n with
  | zero => rfl
  | succ n ih => simpa [pointerTo, indirect] using ih

/-- C18: for every value, `EmptySlice` is true exactly when `FromSlice` is true and
what is left after every pointer level is dereferenced is a slice of length 0;
`EmptySlice` never panics; `FromSlice` and `FromMap` are never both true; and for the
nil value and for a nil pointer behind any number of pointer levels the three
functions return false. -/
theorem slice_predicates (s : Value) (n : Nat) :
    (EmptySlice s = some true ↔ FromSlice s = true ∧ indirect s = .slice 0) ∧
    (∃ b, EmptySlice s = some b) ∧
    ¬ (FromSlice s = true ∧ FromMap s = true) ∧
    (FromSlice .invalid = false ∧ EmptySlice .invalid = some false ∧
      FromMap .invalid = false) ∧
    (FromSlice (pointerTo n .nilPtr) = false ∧
      EmptySlice (pointerTo n .nilPtr) = some false ∧
      FromMap (pointerTo n .nilPtr) = false) := by
  refine ⟨?_, ?_, ?_, ⟨rfl, rfl, rfl⟩, ?_⟩
  · simp only [EmptySlice, FromSlice]
    generalize indirect s = v
    cases v <;> simp [Value.Kind, Value.Len]
  · simp only [EmptySlice]
    generalize indirect s = v
    cases v <;> simp [Value.Kind, Value.Len]
  · simp only [FromSlice, FromMap]
    generalize indirect s = v
    cases v <;> simp [Value.Kind]
  · simp only [FromSlice, EmptySlice, FromMap, indirect_pointerTo]
    exact ⟨rfl, rfl, rfl⟩

end database
